import Mathlib

/-!
# GamePlayerManagement: session and data-synchronisation layer

A shallow embedding of `frontend/src/components/GamePlayerManagement.jsx`.

The React component is modelled as a record of its `useState` cells (`State`)
inside a `World` that also carries `localStorage` and the observable traces
(requests handed to `fetch`, `showMessage` calls, `console.error` lines).
Every handler of the component is a function `Env → World → World`; a handler
runs to completion before the next user event is taken, and the state updates
of one handler are committed in one render, after which the `useEffect`
watching `[currentUser, token]` runs if one of the two changed.

What the browser and the backend provide (`fetch`, `JSON.parse`,
`JSON.stringify`, `encodeURIComponent`, `window.confirm`) is a parameter, `Env`.
-/

namespace GamePlayerManagement

/-! ## JavaScript values -/

/-- JavaScript values that the component stores and sends. A number is held as
its canonical decimal rendering (what `String(n)` returns), so that string
coercion and `===` on numbers are exact; objects list their own properties. -/
inductive JsVal where
  | undefined
  | null
  | bool (b : Bool)
  | num (lit : String)
  | str (s : String)
  | arr (items : List JsVal)
  | obj (fields : List (String × JsVal))

namespace JsVal

/-- Truthiness, as tested by `if (v)`, `!v`, `a && b` and `a || b`. -/
def truthy : JsVal → Bool
  | undefined => false
  | null => false
  | bool b => b
  | num lit => !(lit == "0" || lit == "NaN")
  | str s => !(s == "")
  | arr _ => true
  | obj _ => true

mutual
/-- String coercion, as performed by template literals, `new Error(v)` and
`localStorage.setItem(k, v)`. -/
def toStr : JsVal → String
  | undefined => "undefined"
  | null => "null"
  | bool b => if b then "true" else "false"
  | num lit => lit
  | str s => s
  | arr items => joinItems items
  | obj _ => "[object Object]"
termination_by structural v => v
/-- The comma-joined rendering of an array (`Array.prototype.join`). -/
def joinItems : List JsVal → String
  | [] => ""
  | x :: rest =>
    (match x with
      | undefined => ""
      | null => ""
      | v => toStr v) ++ (match rest with
      | [] => ""
      | _ => ",") ++ joinItems rest
termination_by structural xs => xs
end

/-- The comparison `Object.is` that React applies to a state cell and to effect
dependencies, for a right-hand value that was just produced (a literal or a
freshly parsed body): primitives compare by value, a fresh object or array is
a new reference and equals nothing held before. -/
def objectIs : JsVal → JsVal → Bool
  | undefined, undefined => true
  | null, null => true
  | bool a, bool b => a == b
  | num a, num b => a == b
  | str a, str b => a == b
  | _, _ => false

/-- The value of `localStorage.getItem(k)`: a string, or `null`. -/
def ofItem : Option String → JsVal
  | none => null
  | some s => str s

end JsVal

open JsVal

/-- The characters `String.prototype.trim` strips: ECMAScript WhiteSpace and
LineTerminator code points. -/
def isJsWhitespace (c : Char) : Bool :=
  let n := c.toNat
  n == 0x9 || n == 0xA || n == 0xB || n == 0xC || n == 0xD || n == 0x20 ||
  n == 0xA0 || n == 0x1680 || (0x2000 ≤ n && n ≤ 0x200A) || n == 0x2028 ||
  n == 0x2029 || n == 0x202F || n == 0x205F || n == 0x3000 || n == 0xFEFF

/-- Models `String.prototype.trim`. -/
def jsTrim (s : String) : String :=
  ⟨((s.data.dropWhile isJsWhitespace).reverse.dropWhile isJsWhitespace).reverse⟩

/-! ## localStorage -/

/-- The store behind `localStorage`: string keys bound to string values. -/
abbrev Storage := List (String × String)

namespace Storage

/-- Models `localStorage.getItem(k)`. -/
def getItem (s : Storage) (k : String) : Option String :=
  (s.find? (fun e => e.1 == k)).map (fun e => e.2)

/-- Models `localStorage.removeItem(k)`. -/
def removeItem (s : Storage) (k : String) : Storage :=
  s.filter (fun e => !(e.1 == k))

/-- Models `localStorage.setItem(k, v)`. -/
def setItem (s : Storage) (k v : String) : Storage :=
  (k, v) :: s.removeItem k

end Storage

/-! ## The network and the browser -/

/-- What `apiCall` hands to `fetch`: the URL and the `options` object. -/
structure Request where
  url : String
  method : String
  headers : List (String × String)
  body : Option String

/-- How one `fetch` ends. `rejected msg`: the promise rejects (transport
failure) with an error whose message is `msg`. `response status body`: a
response with that HTTP status, `body` being what `response.json()` gives, the
parsed value or the message of the error it rejects with. -/
inductive FetchResult where
  | rejected (msg : String)
  | response (status : Nat) (body : Except String JsVal)

/-- The collaborators of the component. `fetch n r` is the outcome of the
request `r` when `n` requests were issued before it; `jsonParse` gives the
parsed value or the message of the `SyntaxError`; `jsonStringify v` is the
string that `JSON.stringify(v)` leaves once stored or sent; `confirm` is the
answer of the user to `window.confirm`; `nullishMessage v k` is the message of
the `TypeError` raised on reading property `k` of `null` or `undefined`. -/
structure Env where
  fetch : Nat → Request → FetchResult
  jsonParse : String → Except String JsVal
  jsonStringify : JsVal → String
  encodeURIComponent : String → String
  confirm : String → Bool
  nullishMessage : JsVal → String → String

/-- Property read `v.k` for the property names the component reads (`error`,
`token`, `player`, `player_id`): a `TypeError` on `null` and `undefined`, the
own property of an object, `undefined` otherwise. -/
def getProp (env : Env) (v : JsVal) (k : String) : Except String JsVal :=
  match v with
  | .undefined => .error (env.nullishMessage .undefined k)
  | .null => .error (env.nullishMessage .null k)
  | .obj fields => .ok (((fields.find? (fun e => e.1 == k)).map (fun e => e.2)).getD .undefined)
  | _ => .ok .undefined

/-! ## Component state -/

/-- The notification cell `message`. -/
structure Message where
  type : String
  text : String
deriving DecidableEq

/-- The `useState` cells of the component. -/
structure State where
  currentUser : JsVal
  token : JsVal
  activeTab : String
  loading : Bool
  message : Message
  loginData : JsVal
  signupData : JsVal
  games : JsVal
  playerGames : JsVal
  playerStats : JsVal
  allPlayers : JsVal
  friends : JsVal
  friendRequests : JsVal
  searchTerm : String
  characters : JsVal
  newCharacter : JsVal
  matchData : JsVal

/-- The component together with what it can observe and what can be observed
of it. `requests`: every request handed to `fetch`, oldest first. `shown`:
every `showMessage` call. `timers`: number of dismiss timers started. `logged`:
every `console.error` line (label, error message). `sessionDirty`: whether
`currentUser` or `token` changed since the effect on them last ran. -/
structure World where
  state : State
  storage : Storage
  requests : List Request
  shown : List Message
  timers : Nat
  logged : List (String × String)
  sessionDirty : Bool

def API_URL : String := "http://localhost:5000/api"

/-- The empty login form. -/
def emptyLoginData : JsVal := .obj [("username", .str ""), ("password", .str "")]

/-- The empty signup form. -/
def emptySignupData : JsVal :=
  .obj [("username", .str ""), ("email", .str ""), ("password", .str "")]

/-- The empty character form. -/
def emptyNewCharacter : JsVal := .obj [("character_name", .str ""), ("level", .num "1")]

/-- The empty match form. -/
def emptyMatchData : JsVal :=
  .obj [("game_id", .str ""), ("playtime", .str ""), ("is_win", .bool true), ("score", .str "")]

/-- The `useState` initialisers (lines 7 to 38). -/
def initialState (storage : Storage) : State :=
  { currentUser := .null
    token := JsVal.ofItem (storage.getItem "token")
    activeTab := "login"
    loading := false
    message := ⟨"", ""⟩
    loginData := emptyLoginData
    signupData := emptySignupData
    games := .arr []
    playerGames := .arr []
    playerStats := .null
    allPlayers := .arr []
    friends := .arr []
    friendRequests := .arr []
    searchTerm := ""
    characters := .arr []
    newCharacter := emptyNewCharacter
    matchData := emptyMatchData }

/-- The component at its first render over the given `localStorage`. -/
def initialWorld (storage : Storage) : World :=
  { state := initialState storage
    storage := storage
    requests := []
    shown := []
    timers := 0
    logged := []
    sessionDirty := false }

/-! ### State setters -/

def setCurrentUser (v : JsVal) (w : World) : World :=
  { w with
    state := { w.state with currentUser := v }
    sessionDirty := w.sessionDirty || !(JsVal.objectIs w.state.currentUser v) }

def setToken (v : JsVal) (w : World) : World :=
  { w with
    state := { w.state with token := v }
    sessionDirty := w.sessionDirty || !(JsVal.objectIs w.state.token v) }

def setActiveTab (tab : String) (w : World) : World :=
  { w with state := { w.state with activeTab := tab } }

def setLoading (b : Bool) (w : World) : World :=
  { w with state := { w.state with loading := b } }

def setLoginData (v : JsVal) (w : World) : World :=
  { w with state := { w.state with loginData := v } }

def setSignupData (v : JsVal) (w : World) : World :=
  { w with state := { w.state with signupData := v } }

def setGames (v : JsVal) (w : World) : World :=
  { w with state := { w.state with games := v } }

def setPlayerGames (v : JsVal) (w : World) : World :=
  { w with state := { w.state with playerGames := v } }

def setPlayerStats (v : JsVal) (w : World) : World :=
  { w with state := { w.state with playerStats := v } }

def setAllPlayers (v : JsVal) (w : World) : World :=
  { w with state := { w.state with allPlayers := v } }

def setFriends (v : JsVal) (w : World) : World :=
  { w with state := { w.state with friends := v } }

def setFriendRequests (v : JsVal) (w : World) : World :=
  { w with state := { w.state with friendRequests := v } }

def setCharacters (v : JsVal) (w : World) : World :=
  { w with state := { w.state with characters := v } }

def setNewCharacter (v : JsVal) (w : World) : World :=
  { w with state := { w.state with newCharacter := v } }

def setMatchData (v : JsVal) (w : World) : World :=
  { w with state := { w.state with matchData := v } }

/-- Models `console.error(label, error)`. -/
def consoleError (label msg : String) (w : World) : World :=
  { w with logged := w.logged ++ [(label, msg)] }

/-- Models `showMessage` (lines 57 to 60): sets the notification and starts the timer
that blanks it five seconds later. -/
def showMessage (type text : String) (w : World) : World :=
  { w with
    state := { w.state with message := ⟨type, text⟩ }
    shown := w.shown ++ [⟨type, text⟩]
    timers := w.timers + 1 }

/-! ## apiCall and the loaders -/

/-- The `headers` object of `apiCall` (lines 63 to 69). -/
def requestHeaders (token : JsVal) : List (String × String) :=
  [("Content-Type", "application/json")] ++
    (if token.truthy then [("Authorization", "Bearer " ++ token.toStr)] else [])

/-- The request `apiCall` builds (lines 63 to 78 and the URL of line 81). -/
def buildRequest (env : Env) (token : JsVal) (endpoint method : String) (body : JsVal) :
    Request :=
  { url := API_URL ++ endpoint
    method := method
    headers := requestHeaders token
    body := if body.truthy then some (env.jsonStringify body) else none }

/-- The world after a request has been handed to `fetch`. -/
def issue (req : Request) (w : World) : World :=
  { w with requests := w.requests ++ [req] }

/-- The outcome of `apiCall` (lines 80 to 91): the parsed body it returns, or
the message of the error it throws. -/
def apiResult (env : Env) (w : World) (endpoint method : String) (body : JsVal) :
    Except String JsVal :=
  match env.fetch w.requests.length (buildRequest env w.state.token endpoint method body) with
  | .rejected msg => .error msg
  | .response _ (.error msg) => .error msg
  | .response status (.ok data) =>
    if 200 ≤ status ∧ status ≤ 299 then .ok data
    else
      match getProp env data "error" with
      | .error msg => .error msg
      | .ok e => .error (if e.truthy then e.toStr else "Something went wrong")

/-- Models `apiCall` (lines 62 to 92): its outcome, with the world in which the
request has been issued. -/
def apiCall (env : Env) (w : World) (endpoint method : String) (body : JsVal) :
    Except String JsVal × World :=
  (apiResult env w endpoint method body,
    issue (buildRequest env w.state.token endpoint method body) w)

def loadGames (env : Env) (w : World) : World :=
  match apiCall env w "/games" "GET" .null with
  | (.ok data, w1) => setGames data w1
  | (.error msg, w1) => consoleError "Error loading games:" msg w1

def loadPlayerGames (env : Env) (w : World) : World :=
  match apiCall env w "/games/player" "GET" .null with
  | (.ok data, w1) => setPlayerGames data w1
  | (.error msg, w1) => consoleError "Error loading player games:" msg w1

def loadPlayerStats (env : Env) (w : World) : World :=
  match apiCall env w "/player/stats" "GET" .null with
  | (.ok data, w1) => setPlayerStats data w1
  | (.error msg, w1) => consoleError "Error loading player stats:" msg w1

def loadCharacters (env : Env) (w : World) : World :=
  match apiCall env w "/characters" "GET" .null with
  | (.ok data, w1) => setCharacters data w1
  | (.error msg, w1) => consoleError "Error loading characters:" msg w1

def loadFriends (env : Env) (w : World) : World :=
  match apiCall env w "/friends" "GET" .null with
  | (.ok data, w1) => setFriends data w1
  | (.error msg, w1) => consoleError "Error loading friends:" msg w1

def loadFriendRequests (env : Env) (w : World) : World :=
  match apiCall env w "/friends/requests" "GET" .null with
  | (.ok data, w1) => setFriendRequests data w1
  | (.error msg, w1) => consoleError "Error loading friend requests:" msg w1

/-- Models `loadAllData` (lines 94 to 107). The six loaders are started in this order,
so their requests are issued in this order; none of them throws, and each
writes only its own cell, so the order in which the responses arrive does not
show in the resulting state. -/
def loadAllData (env : Env) (w : World) : World :=
  loadFriendRequests env (loadFriends env (loadCharacters env
    (loadPlayerStats env (loadPlayerGames env (loadGames env w)))))

/-- Models `searchPlayers` (lines 163 to 174). -/
def searchPlayers (env : Env) (w : World) : World :=
  if !(JsVal.str (jsTrim w.state.searchTerm)).truthy then
    setAllPlayers (.arr []) w
  else
    match apiCall env w
        ("/friends/search?q=" ++ env.encodeURIComponent w.state.searchTerm) "GET" .null with
    | (.ok data, w1) => setAllPlayers data w1
    | (.error msg, w1) => consoleError "Error searching players:" msg w1

/-! ## The handlers -/

/-- Models `handleLogin` (lines 176 to 196). -/
def handleLogin (env : Env) (w : World) : World :=
  let w0 := setLoading true w
  let w1 :=
    match apiCall env w0 "/auth/login" "POST" w.state.loginData with
    | (.ok data, wa) =>
      match getProp env data "token" with
      | .error msg => showMessage "error" msg wa
      | .ok tok =>
        let wb := setToken tok wa
        match getProp env data "player" with
        | .error msg => showMessage "error" msg wb
        | .ok player =>
          let wc := setCurrentUser player wb
          let wd : World :=
            { wc with
              storage := (wc.storage.setItem "token" tok.toStr).setItem "user"
                (env.jsonStringify player) }
          setLoginData emptyLoginData
            (showMessage "success" "Login successful!" (setActiveTab "dashboard" wd))
    | (.error msg, wa) => showMessage "error" msg wa
  setLoading false w1

/-- Models `handleSignup` (lines 198 to 212). -/
def handleSignup (env : Env) (w : World) : World :=
  let w0 := setLoading true w
  let w1 :=
    match apiCall env w0 "/auth/signup" "POST" w.state.signupData with
    | (.ok _, wa) =>
      setSignupData emptySignupData (setActiveTab "login"
        (showMessage "success" "Account created successfully! Please login." wa))
    | (.error msg, wa) => showMessage "error" msg wa
  setLoading false w1

/-- Models `handleLogout` (lines 214 to 221). -/
def handleLogout (w : World) : World :=
  let w1 := setToken .null (setCurrentUser .null w)
  let w2 : World :=
    { w1 with storage := (w1.storage.removeItem "token").removeItem "user" }
  showMessage "success" "Logged out successfully" (setActiveTab "login" w2)

/-- Models `handleRecordMatch` (lines 223 to 238). -/
def handleRecordMatch (env : Env) (w : World) : World :=
  let w0 := setLoading true w
  let w1 :=
    match apiCall env w0 "/games/match" "POST" w.state.matchData with
    | (.ok _, wa) =>
      loadPlayerStats env (loadPlayerGames env (setMatchData emptyMatchData
        (showMessage "success" "Match recorded successfully! Stats updated." wa)))
    | (.error msg, wa) => showMessage "error" msg wa
  setLoading false w1

/-- Models `handleCreateCharacter` (lines 240 to 254). -/
def handleCreateCharacter (env : Env) (w : World) : World :=
  let w0 := setLoading true w
  let w1 :=
    match apiCall env w0 "/characters" "POST" w.state.newCharacter with
    | (.ok _, wa) =>
      loadCharacters env (setNewCharacter emptyNewCharacter
        (showMessage "success" "Character created successfully!" wa))
    | (.error msg, wa) => showMessage "error" msg wa
  setLoading false w1

/-- Models `handleDeleteCharacter` (lines 256 to 270). -/
def handleDeleteCharacter (env : Env) (characterId : JsVal) (w : World) : World :=
  if !(env.confirm "Are you sure you want to delete this character?") then w
  else
    let w0 := setLoading true w
    let w1 :=
      match apiCall env w0 ("/characters/" ++ characterId.toStr) "DELETE" .null with
      | (.ok _, wa) =>
        loadCharacters env (showMessage "success" "Character deleted successfully!" wa)
      | (.error msg, wa) => showMessage "error" msg wa
    setLoading false w1

/-- Models `handleSendFriendRequest` (lines 272 to 284). -/
def handleSendFriendRequest (env : Env) (playerId : JsVal) (w : World) : World :=
  let w0 := setLoading true w
  let w1 :=
    match apiCall env w0 "/friends/request" "POST" (.obj [("friend_id", playerId)]) with
    | (.ok _, wa) => searchPlayers env (showMessage "success" "Friend request sent!" wa)
    | (.error msg, wa) => showMessage "error" msg wa
  setLoading false w1

/-- Models `handleAcceptFriend` (lines 286 to 299). -/
def handleAcceptFriend (env : Env) (friendId : JsVal) (w : World) : World :=
  let w0 := setLoading true w
  let w1 :=
    match apiCall env w0 ("/friends/accept/" ++ friendId.toStr) "PUT" .null with
    | (.ok _, wa) =>
      loadFriendRequests env (loadFriends env
        (showMessage "success" "Friend request accepted!" wa))
    | (.error msg, wa) => showMessage "error" msg wa
  setLoading false w1

/-- Models `handleRemoveFriend` (lines 301 to 315). -/
def handleRemoveFriend (env : Env) (friendId : JsVal) (w : World) : World :=
  if !(env.confirm "Are you sure you want to remove this friend?") then w
  else
    let w0 := setLoading true w
    let w1 :=
      match apiCall env w0 ("/friends/" ++ friendId.toStr) "DELETE" .null with
      | (.ok _, wa) => loadFriends env (showMessage "success" "Friend removed" wa)
      | (.error msg, wa) => showMessage "error" msg wa
    setLoading false w1

/-! ## Effects and renders -/

/-- The body of the effect on `[currentUser, token]` (lines 51 to 55), run with
the values of `currentUser` and `token` of the render that scheduled it. -/
def sessionEffect (env : Env) (currentUser token : JsVal) (w : World) : World :=
  if currentUser.truthy && token.truthy then loadAllData env w else w

/-- The render that follows a handler: the effect on `[currentUser, token]`
runs when one of the two changed. -/
def rerender (env : Env) (w : World) : World :=
  if w.sessionDirty then
    sessionEffect env w.state.currentUser w.state.token { w with sessionDirty := false }
  else w

/-- The mount effect (lines 41 to 49): the world it leaves, or the message of
the error it throws. -/
def mountEffect (env : Env) (w : World) : Except String World :=
  let savedToken := w.storage.getItem "token"
  let savedUser := w.storage.getItem "user"
  if (JsVal.ofItem savedToken).truthy && (JsVal.ofItem savedUser).truthy then
    match env.jsonParse (savedUser.getD "") with
    | .error msg => .error msg
    | .ok user =>
      .ok (setActiveTab "dashboard" (setCurrentUser user
        (setToken (JsVal.ofItem savedToken) w)))
  else .ok w

/-- Process start: the first render over the given `localStorage`, its two
effects in declaration order (both see the cells of the first render), and the
render the mount effect causes. An error is an exception thrown out of an
effect. -/
def mount (env : Env) (storage : Storage) : Except String World :=
  let w0 := initialWorld storage
  match mountEffect env w0 with
  | .error msg => .error msg
  | .ok w1 => .ok (rerender env (sessionEffect env w0.state.currentUser w0.state.token w1))

/-! ## User actions -/

/-- What the user, or the component itself, can start once mounted. -/
inductive Action where
  | login
  | signup
  | logout
  | loadGames
  | loadPlayerGames
  | loadPlayerStats
  | loadCharacters
  | loadFriends
  | loadFriendRequests
  | search
  | recordMatch
  | createCharacter
  | deleteCharacter (characterId : JsVal)
  | sendFriendRequest (playerId : JsVal)
  | acceptFriend (friendId : JsVal)
  | removeFriend (friendId : JsVal)

/-- The handler an action starts. -/
def Action.handler (env : Env) : Action → World → World
  | .login => handleLogin env
  | .signup => handleSignup env
  | .logout => handleLogout
  | .loadGames => GamePlayerManagement.loadGames env
  | .loadPlayerGames => GamePlayerManagement.loadPlayerGames env
  | .loadPlayerStats => GamePlayerManagement.loadPlayerStats env
  | .loadCharacters => GamePlayerManagement.loadCharacters env
  | .loadFriends => GamePlayerManagement.loadFriends env
  | .loadFriendRequests => GamePlayerManagement.loadFriendRequests env
  | .search => searchPlayers env
  | .recordMatch => handleRecordMatch env
  | .createCharacter => handleCreateCharacter env
  | .deleteCharacter c => handleDeleteCharacter env c
  | .sendFriendRequest p => handleSendFriendRequest env p
  | .acceptFriend f => handleAcceptFriend env f
  | .removeFriend f => handleRemoveFriend env f

/-- One action, from the event to the end of the render it causes. -/
def perform (env : Env) (a : Action) (w : World) : World :=
  rerender env (a.handler env w)

/-! ## A reference environment

Concrete collaborators on which the model can be evaluated: a JSON printer and
a JSON reader for a fragment of JSON, percent-encoding, and scripted backends.
-/

namespace Ref

def quoteChar : Char := Char.ofNat 34

def backslashChar : Char := Char.ofNat 92

def hexDigit (n : Nat) : Char :=
  if n < 10 then Char.ofNat (48 + n) else Char.ofNat (55 + n)

/-- The escape of one character inside a JSON string, as `JSON.stringify`
writes it. -/
def escapeChar (c : Char) : List Char :=
  if c = quoteChar then [backslashChar, quoteChar]
  else if c = backslashChar then [backslashChar, backslashChar]
  else if c.toNat = 8 then [backslashChar, 'b']
  else if c.toNat = 9 then [backslashChar, 't']
  else if c.toNat = 10 then [backslashChar, 'n']
  else if c.toNat = 12 then [backslashChar, 'f']
  else if c.toNat = 13 then [backslashChar, 'r']
  else if c.toNat < 32 then
    [backslashChar, 'u', '0', '0', if c.toNat < 16 then '0' else '1',
      (hexDigit (c.toNat % 16)).toLower]
  else [c]

def quoteString (s : String) : String :=
  ⟨quoteChar :: (s.data.flatMap escapeChar ++ [quoteChar])⟩

mutual
/-- The text `JSON.stringify(v)` for a value that has one. -/
def toJson : JsVal → String
  | .undefined => "undefined"
  | .null => "null"
  | .bool b => if b then "true" else "false"
  | .num lit => if lit == "NaN" || lit == "Infinity" || lit == "-Infinity" then "null" else lit
  | .str s => quoteString s
  | .arr items => "[" ++ itemsToJson items ++ "]"
  | .obj fields => "\x7b" ++ fieldsToJson false fields ++ "\x7d"
termination_by structural v => v
def itemsToJson : List JsVal → String
  | [] => ""
  | x :: rest =>
    (match x with
      | .undefined => "null"
      | v => toJson v) ++ (match rest with
      | [] => ""
      | _ => ",") ++ itemsToJson rest
termination_by structural xs => xs
def fieldsToJson (comma : Bool) : List (String × JsVal) → String
  | [] => ""
  | (k, v) :: rest =>
    match v with
    | .undefined => fieldsToJson comma rest
    | v => (if comma then "," else "") ++ quoteString k ++ ":" ++ toJson v ++
        fieldsToJson true rest
termination_by structural xs => xs
end

def isJsonSpace (c : Char) : Bool :=
  c.toNat == 32 || c.toNat == 9 || c.toNat == 10 || c.toNat == 13

def skipWs (cs : List Char) : List Char := cs.dropWhile isJsonSpace

/-- The rest of a JSON string after its opening quote: its content and what
follows the closing quote. Escapes other than `\u` are read. -/
def readString : List Char → List Char → Option (String × List Char)
  | _, [] => none
  | acc, c :: rest =>
    if c = quoteChar then some (⟨acc.reverse⟩, rest)
    else if c = backslashChar then
      match rest with
      | [] => none
      | e :: rest2 =>
        if e = quoteChar then readString (quoteChar :: acc) rest2
        else if e = backslashChar then readString (backslashChar :: acc) rest2
        else if e = '/' then readString ('/' :: acc) rest2
        else if e = 'b' then readString (Char.ofNat 8 :: acc) rest2
        else if e = 't' then readString (Char.ofNat 9 :: acc) rest2
        else if e = 'n' then readString (Char.ofNat 10 :: acc) rest2
        else if e = 'f' then readString (Char.ofNat 12 :: acc) rest2
        else if e = 'r' then readString (Char.ofNat 13 :: acc) rest2
        else none
    else if c.toNat < 32 then none
    else readString (c :: acc) rest

/-- An integer literal of at most fifteen digits: its canonical rendering and
what follows. -/
def readInt (cs : List Char) : Option (String × List Char) :=
  let neg := cs.head? == some '-'
  let body := if neg then cs.drop 1 else cs
  let digits := body.takeWhile Char.isDigit
  let rest := body.dropWhile Char.isDigit
  let follows := match rest with
    | [] => false
    | c :: _ => c == '.' || c == 'e' || c == 'E'
  if digits.isEmpty || follows || digits.length > 15 ||
      (digits.length > 1 && digits.head? == some '0') then none
  else if digits == ['0'] then some ("0", rest)
  else some (⟨(if neg then ['-'] else []) ++ digits⟩, rest)

/-- Binds a property, replacing an earlier binding of the same name. -/
def bindField (k : String) (v : JsVal) : List (String × JsVal) → List (String × JsVal)
  | [] => [(k, v)]
  | (k0, v0) :: rest => if k0 == k then (k0, v) :: rest else (k0, v0) :: bindField k v rest

mutual
def readValue : Nat → List Char → Option (JsVal × List Char)
  | 0, _ => none
  | fuel + 1, cs =>
    match skipWs cs with
    | [] => none
    | 'n' :: 'u' :: 'l' :: 'l' :: rest => some (.null, rest)
    | 't' :: 'r' :: 'u' :: 'e' :: rest => some (.bool true, rest)
    | 'f' :: 'a' :: 'l' :: 's' :: 'e' :: rest => some (.bool false, rest)
    | c :: rest =>
      if c = quoteChar then (readString [] rest).map (fun r => (JsVal.str r.1, r.2))
      else if c = '[' then
        match skipWs rest with
        | ']' :: rest2 => some (.arr [], rest2)
        | _ => readItems fuel [] rest
      else if c.toNat = 123 then
        match skipWs rest with
        | d :: rest2 => if d.toNat = 125 then some (.obj [], rest2) else readFields fuel [] rest
        | [] => none
      else (readInt (c :: rest)).map (fun r => (JsVal.num r.1, r.2))
termination_by structural fuel => fuel
def readItems : Nat → List JsVal → List Char → Option (JsVal × List Char)
  | 0, _, _ => none
  | fuel + 1, acc, cs =>
    match readValue fuel cs with
    | none => none
    | some (v, rest) =>
      match skipWs rest with
      | ',' :: rest2 => readItems fuel (acc ++ [v]) rest2
      | ']' :: rest2 => some (.arr (acc ++ [v]), rest2)
      | _ => none
termination_by structural fuel => fuel
def readFields : Nat → List (String × JsVal) → List Char → Option (JsVal × List Char)
  | 0, _, _ => none
  | fuel + 1, acc, cs =>
    match skipWs cs with
    | [] => none
    | q :: rest =>
      if q = quoteChar then
        match readString [] rest with
        | none => none
        | some (k, rest1) =>
          match skipWs rest1 with
          | ':' :: rest2 =>
            match readValue fuel rest2 with
            | none => none
            | some (v, rest3) =>
              match skipWs rest3 with
              | [] => none
              | d :: rest4 =>
                if d = ',' then readFields fuel (bindField k v acc) rest4
                else if d.toNat = 125 then some (.obj (bindField k v acc), rest4)
                else none
          | _ => none
      else none
termination_by structural fuel => fuel
end

/-- A reader for a fragment of JSON (no `\u` escapes; numbers are integers of
at most fifteen digits). On a text of the fragment it returns what
`JSON.parse` returns; any other text is reported as a syntax error. -/
def parseJson (s : String) : Except String JsVal :=
  match readValue (s.length + 1) s.data with
  | some (v, rest) => if (skipWs rest).isEmpty then .ok v else .error "SyntaxError"
  | none => .error "SyntaxError"

def isUnreserved (c : Char) : Bool :=
  c.isAlphanum || c == '-' || c == '_' || c == '.' || c == '!' || c == '~' || c == '*' ||
    c.toNat == 39 || c == '(' || c == ')'

/-- The UTF-8 bytes of a code point. -/
def utf8Bytes (n : Nat) : List Nat :=
  if n < 0x80 then [n]
  else if n < 0x800 then [0xC0 + n / 64, 0x80 + n % 64]
  else if n < 0x10000 then [0xE0 + n / 4096, 0x80 + n / 64 % 64, 0x80 + n % 64]
  else [0xF0 + n / 262144, 0x80 + n / 4096 % 64, 0x80 + n / 64 % 64, 0x80 + n % 64]

def percentByte (b : Nat) : List Char := ['%', hexDigit (b / 16), hexDigit (b % 16)]

/-- Models `encodeURIComponent`. -/
def encodeURIComponent (s : String) : String :=
  ⟨s.data.flatMap (fun c => if isUnreserved c then [c] else (utf8Bytes c.toNat).flatMap percentByte)⟩

/-- The wording V8 gives the `TypeError` on reading a property of `null` or
`undefined`. -/
def nullishMessage (v : JsVal) (k : String) : String :=
  "Cannot read properties of " ++ v.toStr ++ " (reading " ++ String.singleton (Char.ofNat 39) ++
    k ++ String.singleton (Char.ofNat 39) ++ ")"

/-- The environment whose backend answers the `n`-th request with the `n`-th
entry of the script (a transport failure once the script is exhausted) and
whose user answers every confirmation with `yes`. -/
def env (script : List FetchResult) (yes : Bool) : Env :=
  { fetch := fun n _ => script.getD n (.rejected "Failed to fetch")
    jsonParse := parseJson
    jsonStringify := toJson
    encodeURIComponent := encodeURIComponent
    confirm := fun _ => yes
    nullishMessage := nullishMessage }

end Ref

/-! ## Vocabulary of the specification -/

/-- The cell a read leaves: the body when the read succeeded, the old content
when it failed. -/
def loaded (r : Except String JsVal) (old : JsVal) : JsVal :=
  match r with
  | .ok data => data
  | .error _ => old

/-- The `console.error` line a failed read leaves. -/
def failureLog (label : String) (r : Except String JsVal) : List (String × String) :=
  match r with
  | .ok _ => []
  | .error msg => [(label, msg)]

/-- The cells of View State that hold backend data. -/
inductive Slice where
  | games
  | playerGames
  | playerStats
  | characters
  | friends
  | friendRequests
  | allPlayers
deriving DecidableEq

/-- The content of a cell of View State. -/
def State.slice (st : State) : Slice → JsVal
  | .games => st.games
  | .playerGames => st.playerGames
  | .playerStats => st.playerStats
  | .characters => st.characters
  | .friends => st.friends
  | .friendRequests => st.friendRequests
  | .allPlayers => st.allPlayers

/-- The six reads of the Bulk Refresh, in the order `loadAllData` starts them. -/
inductive Read where
  | games
  | playerGames
  | playerStats
  | characters
  | friends
  | friendRequests
deriving DecidableEq

/-- The endpoint a read fetches (lines 111, 120, 129, 138, 147, 156). -/
def Read.endpoint : Read → String
  | .games => "/games"
  | .playerGames => "/games/player"
  | .playerStats => "/player/stats"
  | .characters => "/characters"
  | .friends => "/friends"
  | .friendRequests => "/friends/requests"

/-- The cell a read owns (lines 112, 121, 130, 139, 148, 157). -/
def Read.slice : Read → Slice
  | .games => .games
  | .playerGames => .playerGames
  | .playerStats => .playerStats
  | .characters => .characters
  | .friends => .friends
  | .friendRequests => .friendRequests

/-- The request a read issues under the given token. -/
def Read.request (env : Env) (token : JsVal) (r : Read) : Request :=
  buildRequest env token r.endpoint "GET" .null

/-- The mutations of the policy table of §4.3 whose refresh is a set of reads. -/
inductive Mutation where
  | recordMatch
  | createCharacter
  | deleteCharacter (characterId : JsVal)
  | acceptFriend (friendId : JsVal)
  | removeFriend (friendId : JsVal)

/-- The policy table of §4.3, as the specification words it. -/
def refreshPolicy : Mutation → List Read
  | .recordMatch => [.playerGames, .playerStats]
  | .createCharacter => [.characters]
  | .deleteCharacter _ => [.characters]
  | .acceptFriend _ => [.friends, .friendRequests]
  | .removeFriend _ => [.friends]

/-- The action that carries out a mutation. -/
def Mutation.toAction : Mutation → Action
  | .recordMatch => .recordMatch
  | .createCharacter => .createCharacter
  | .deleteCharacter c => .deleteCharacter c
  | .acceptFriend f => .acceptFriend f
  | .removeFriend f => .removeFriend f

/-- The mutating call of a mutation: endpoint, method and body (lines 228, 245,
262, 290, 307). -/
def Mutation.call (st : State) : Mutation → String × String × JsVal
  | .recordMatch => ("/games/match", "POST", st.matchData)
  | .createCharacter => ("/characters", "POST", st.newCharacter)
  | .deleteCharacter c => ("/characters/" ++ c.toStr, "DELETE", .null)
  | .acceptFriend f => ("/friends/accept/" ++ f.toStr, "PUT", .null)
  | .removeFriend f => ("/friends/" ++ f.toStr, "DELETE", .null)

/-- The question a mutation asks before it does anything (lines 257, 302). -/
def Mutation.confirmText : Mutation → Option String
  | .deleteCharacter _ => some "Are you sure you want to delete this character?"
  | .removeFriend _ => some "Are you sure you want to remove this friend?"
  | _ => none

/-! ## Sample data -/

namespace Sample

/-- The player of the scenarios of §8. -/
def alice : JsVal := .obj [("player_id", .num "1"), ("username", .str "alice")]

/-- A persisted session of alice. -/
def aliceStorage : Storage :=
  [("token", "t1"), ("user", "\x7b\"player_id\":1,\"username\":\"alice\"\x7d")]

/-- The component with alice logged in and some data on display. -/
def loggedIn : World :=
  { initialWorld aliceStorage with
    state := { initialState aliceStorage with
      currentUser := alice
      token := .str "t1"
      activeTab := "dashboard"
      games := .arr [.obj [("game_id", .num "5"), ("title", .str "Chess")]]
      characters := .arr [.obj [("character_id", .num "7"), ("character_name", .str "Nyx")]]
      friends := .arr [.obj [("player_id", .num "2"), ("username", .str "bob")]] } }

/-- A successful response with the given body. -/
def ok200 (v : JsVal) : FetchResult := .response 200 (.ok v)

/-- The response of a backend that rejects the credential. -/
def unauthorized : FetchResult :=
  .response 401 (.ok (.obj [("error", .str "Invalid or expired token")]))

/-- The match of the scenario of §8. -/
def matchForm : JsVal :=
  .obj [("game_id", .num "5"), ("playtime", .num "2.5"), ("is_win", .bool true),
    ("score", .num "100")]

/-- The component of alice with the match form filled in. -/
def recording : World :=
  { loggedIn with state := { loggedIn.state with matchData := matchForm } }

/-- A backend that accepts the match and serves the two reads that follow. -/
def recordingScript : List FetchResult :=
  [ok200 (.obj [("message", .str "Match recorded")]),
    ok200 (.arr [.obj [("game_id", .num "5"), ("wins", .num "1")]]),
    ok200 (.obj [("total_wins", .num "1")])]

/-- The component of alice with a blank search term and stale results. -/
def blankSearch : World :=
  { loggedIn with
    state := { loggedIn.state with
      searchTerm := " \t\n"
      allPlayers := .arr [.obj [("player_id", .num "3"), ("username", .str "carol")]] } }

/-- The login form of the scenario of §8. -/
def loginForm : JsVal := .obj [("username", .str "alice"), ("password", .str "pw")]

/-- The component of an anonymous visitor with the login form filled in. -/
def loggingIn : World :=
  { initialWorld [] with state := { initialState [] with loginData := loginForm } }

/-- A backend that accepts the login of the scenario and serves the six reads. -/
def loginScript : List FetchResult :=
  [ok200 (.obj [("token", .str "t1"), ("player", alice)]),
    ok200 (.arr []), ok200 (.arr []), ok200 (.obj [("total_wins", .num "0")]),
    ok200 (.arr []), ok200 (.arr []), ok200 (.arr [])]

/-- A backend that accepts the login and answers with an empty token. -/
def emptyTokenScript : List FetchResult :=
  [ok200 (.obj [("token", .str ""), ("player", alice)]),
    ok200 (.arr []), ok200 (.arr []), ok200 (.obj [("total_wins", .num "0")]),
    ok200 (.arr []), ok200 (.arr []), ok200 (.arr [])]

/-- A backend that accepts the login and answers with no player. -/
def nullPlayerScript : List FetchResult :=
  [ok200 (.obj [("token", .str "t1"), ("player", .null)]),
    ok200 (.arr []), ok200 (.arr []), ok200 (.obj [("total_wins", .num "0")]),
    ok200 (.arr []), ok200 (.arr []), ok200 (.arr [])]

/-- A backend that accepts a deletion and serves the read that follows. -/
def deletionScript : List FetchResult :=
  [ok200 (.obj [("message", .str "Character deleted")]), ok200 (.arr [])]

/-- A storage that holds a token and no user. -/
def tokenOnly : Storage := [("token", "abc")]

/-- A storage whose user is not JSON. -/
def malformed : Storage := [("token", "abc"), ("user", "\x7b")]

end Sample

/-- The credential held in memory and the persisted storage. -/
def sessionOf (w : World) : JsVal × JsVal × Storage :=
  (w.state.currentUser, w.state.token, w.storage)

/-! ## Outcomes and calls -/

/-- The body `apiCall` returns for a fetch outcome (lines 81 to 88), if it
returns one: the response came, its body parsed, and its status is 2xx. -/
def FetchResult.success : FetchResult → Option JsVal
  | .rejected _ => none
  | .response _ (.error _) => none
  | .response status (.ok data) => if 200 ≤ status ∧ status ≤ 299 then some data else none

/-- The position of a read among the six requests of `loadAllData`. -/
def Read.index : Read → Nat
  | .games => 0
  | .playerGames => 1
  | .playerStats => 2
  | .characters => 3
  | .friends => 4
  | .friendRequests => 5

/-- The first backend call of a handler: endpoint, method and body (lines 181,
203, 228, 245, 262, 276, 290, 307). Logout, the loaders and the search have
none of this kind. -/
def Action.call (st : State) : Action → Option (String × String × JsVal)
  | .login => some ("/auth/login", "POST", st.loginData)
  | .signup => some ("/auth/signup", "POST", st.signupData)
  | .recordMatch => some ("/games/match", "POST", st.matchData)
  | .createCharacter => some ("/characters", "POST", st.newCharacter)
  | .deleteCharacter c => some ("/characters/" ++ c.toStr, "DELETE", .null)
  | .sendFriendRequest p => some ("/friends/request", "POST", .obj [("friend_id", p)])
  | .acceptFriend f => some ("/friends/accept/" ++ f.toStr, "PUT", .null)
  | .removeFriend f => some ("/friends/" ++ f.toStr, "DELETE", .null)
  | _ => none

/-- The question an action asks before it does anything (lines 257, 302). -/
def Action.confirmText : Action → Option String
  | .deleteCharacter _ => some "Are you sure you want to delete this character?"
  | .removeFriend _ => some "Are you sure you want to remove this friend?"
  | _ => none

/-- The text a handler shows on its success path (lines 189, 204, 220, 229,
246, 263, 277, 291, 308). The loaders and the search show none. -/
def Action.successText : Action → Option String
  | .login => some "Login successful!"
  | .signup => some "Account created successfully! Please login."
  | .logout => some "Logged out successfully"
  | .recordMatch => some "Match recorded successfully! Stats updated."
  | .createCharacter => some "Character created successfully!"
  | .deleteCharacter _ => some "Character deleted successfully!"
  | .sendFriendRequest _ => some "Friend request sent!"
  | .acceptFriend _ => some "Friend request accepted!"
  | .removeFriend _ => some "Friend removed"
  | _ => none

/-! ## The row of a search result (lines 794 to 811) -/

/-- Strict equality `a === b` of two values that come from different
responses: primitives compare by value (`NaN` equals nothing), two objects or
arrays are different references. -/
def strictEq : JsVal → JsVal → Bool
  | .undefined, .undefined => true
  | .null, .null => true
  | .bool a, .bool b => a == b
  | .num a, .num b => a == b && !(a == "NaN")
  | .str a, .str b => a == b
  | _, _ => false

/-- Models `list.some(e => e.player_id === player.player_id)`: the flag, or the
message of the `TypeError` a `null` entry raises. -/
def somePlayerId (env : Env) (player : JsVal) : List JsVal → Except String Bool
  | [] => .ok false
  | e :: rest =>
    match getProp env e "player_id" with
    | .error msg => .error msg
    | .ok a =>
      match getProp env player "player_id" with
      | .error msg => .error msg
      | .ok b => if strictEq a b then .ok true else somePlayerId env player rest

/-- The flag `isFriend` of a row (line 796). -/
def isFriend (env : Env) (friends : List JsVal) (player : JsVal) : Except String Bool :=
  somePlayerId env player friends

/-- The flag `hasPendingRequest` of a row (line 797). -/
def hasPendingRequest (env : Env) (friendRequests : List JsVal) (player : JsVal) :
    Except String Bool :=
  somePlayerId env player friendRequests

/-- The `disabled` attribute of the send-request button (line 806). -/
def sendDisabled (loading isFriend hasPendingRequest : Bool) : Bool :=
  loading || isFriend || hasPendingRequest

/-- The label of the send-request button (line 810). -/
def sendLabel (isFriend hasPendingRequest : Bool) : String :=
  if isFriend then "Friends" else if hasPendingRequest then "Pending" else "Add"

/-- The send-request button of the row of `player`: whether it is disabled,
and its label. -/
def sendButton (env : Env) (loading : Bool) (friends friendRequests : List JsVal)
    (player : JsVal) : Except String (Bool × String) :=
  match isFriend env friends player with
  | .error msg => .error msg
  | .ok f =>
    match hasPendingRequest env friendRequests player with
    | .error msg => .error msg
    | .ok p => .ok (sendDisabled loading f p, sendLabel f p)

namespace Sample

/-- A player alice looks for. -/
def carol : JsVal := .obj [("player_id", .num "3"), ("username", .str "carol")]

/-- The component of alice with a search term typed in. -/
def searching : World :=
  { loggedIn with state := { loggedIn.state with searchTerm := "carol" } }

/-- A backend that finds carol. -/
def searchHit : List FetchResult := [ok200 (.arr [carol])]

/-- A backend that fails the search. -/
def searchDown : List FetchResult :=
  [.response 500 (.ok (.obj [("error", .str "Database unavailable")]))]

/-- A backend that rejects a request with a message. -/
def rejecting : List FetchResult :=
  [.response 400 (.ok (.obj [("error", .str "Username already exists")]))]

/-- A backend that rejects a request with an empty message. -/
def rejectingSilently : List FetchResult :=
  [.response 400 (.ok (.obj [("error", .str "")]))]

/-- A backend that accepts a friend request and then finds carol. -/
def requestThenHit : List FetchResult :=
  [ok200 (.obj [("message", .str "Friend request sent")]), ok200 (.arr [carol])]

/-- A storage whose user is the JSON text `null`. -/
def nullUser : Storage := [("token", "t1"), ("user", "null")]

end Sample

/-- The own property `k` of an object, `undefined` when there is none. -/
def JsVal.field (v : JsVal) (k : String) : JsVal :=
  match v with
  | .obj fields => ((fields.find? (fun e => e.1 == k)).map (fun e => e.2)).getD .undefined
  | _ => .undefined

/-! # Theorems -/

/-! ## apiCall and the loaders, equationally -/

theorem apiResult_of_status (env : Env) (w : World) (ep m : String) (body : JsVal)
    (status : Nat) (r : Except String JsVal) (hs : ¬ (200 ≤ status ∧ status ≤ 299))
    (h : env.fetch w.requests.length (buildRequest env w.state.token ep m body)
      = .response status r) :
    ∃ msg, apiResult env w ep m body = .error msg := by
  unfold apiResult
  rw [h]
  cases r with
  | error e => exact ⟨e, rfl⟩
  | ok data =>
    simp only [hs, if_false]
    cases getProp env data "error" with
    | error e => exact ⟨e, rfl⟩
    | ok e => exact ⟨_, rfl⟩

theorem loadGames_eq (env : Env) (w : World) :
    loadGames env w =
      { w with
        state := { w.state with
          games := loaded (apiResult env w "/games" "GET" .null) w.state.games }
        requests := w.requests ++ [Read.request env w.state.token .games]
        logged := w.logged ++
          failureLog "Error loading games:" (apiResult env w "/games" "GET" .null) } := by
  unfold loadGames apiCall
  cases apiResult env w "/games" "GET" .null <;>
    simp [loaded, failureLog, setGames, consoleError, issue, Read.request, Read.endpoint]

theorem loadPlayerGames_eq (env : Env) (w : World) :
    loadPlayerGames env w =
      { w with
        state := { w.state with
          playerGames := loaded (apiResult env w "/games/player" "GET" .null) w.state.playerGames }
        requests := w.requests ++ [Read.request env w.state.token .playerGames]
        logged := w.logged ++
          failureLog "Error loading player games:" (apiResult env w "/games/player" "GET" .null) } := by
  unfold loadPlayerGames apiCall
  cases apiResult env w "/games/player" "GET" .null <;>
    simp [loaded, failureLog, setPlayerGames, consoleError, issue, Read.request, Read.endpoint]

theorem loadPlayerStats_eq (env : Env) (w : World) :
    loadPlayerStats env w =
      { w with
        state := { w.state with
          playerStats := loaded (apiResult env w "/player/stats" "GET" .null) w.state.playerStats }
        requests := w.requests ++ [Read.request env w.state.token .playerStats]
        logged := w.logged ++
          failureLog "Error loading player stats:" (apiResult env w "/player/stats" "GET" .null) } := by
  unfold loadPlayerStats apiCall
  cases apiResult env w "/player/stats" "GET" .null <;>
    simp [loaded, failureLog, setPlayerStats, consoleError, issue, Read.request, Read.endpoint]

theorem loadCharacters_eq (env : Env) (w : World) :
    loadCharacters env w =
      { w with
        state := { w.state with
          characters := loaded (apiResult env w "/characters" "GET" .null) w.state.characters }
        requests := w.requests ++ [Read.request env w.state.token .characters]
        logged := w.logged ++
          failureLog "Error loading characters:" (apiResult env w "/characters" "GET" .null) } := by
  unfold loadCharacters apiCall
  cases apiResult env w "/characters" "GET" .null <;>
    simp [loaded, failureLog, setCharacters, consoleError, issue, Read.request, Read.endpoint]

theorem loadFriends_eq (env : Env) (w : World) :
    loadFriends env w =
      { w with
        state := { w.state with
          friends := loaded (apiResult env w "/friends" "GET" .null) w.state.friends }
        requests := w.requests ++ [Read.request env w.state.token .friends]
        logged := w.logged ++
          failureLog "Error loading friends:" (apiResult env w "/friends" "GET" .null) } := by
  unfold loadFriends apiCall
  cases apiResult env w "/friends" "GET" .null <;>
    simp [loaded, failureLog, setFriends, consoleError, issue, Read.request, Read.endpoint]

theorem loadFriendRequests_eq (env : Env) (w : World) :
    loadFriendRequests env w =
      { w with
        state := { w.state with
          friendRequests := loaded (apiResult env w "/friends/requests" "GET" .null) w.state.friendRequests }
        requests := w.requests ++ [Read.request env w.state.token .friendRequests]
        logged := w.logged ++
          failureLog "Error loading friend requests:" (apiResult env w "/friends/requests" "GET" .null) } := by
  unfold loadFriendRequests apiCall
  cases apiResult env w "/friends/requests" "GET" .null <;>
    simp [loaded, failureLog, setFriendRequests, consoleError, issue, Read.request, Read.endpoint]

/-! ## The handlers, by the outcome of their first call -/

theorem handleLogin_of_error (env : Env) (w : World) (msg : String)
    (h : apiResult env w "/auth/login" "POST" w.state.loginData = .error msg) :
    handleLogin env w = setLoading false (showMessage "error" msg
      (issue (buildRequest env w.state.token "/auth/login" "POST" w.state.loginData)
        (setLoading true w))) := by
  have h1 : apiResult env (setLoading true w) "/auth/login" "POST" w.state.loginData = .error msg := h
  simp only [handleLogin, apiCall, h1]
  rfl

theorem handleSignup_of_error (env : Env) (w : World) (msg : String)
    (h : apiResult env w "/auth/signup" "POST" w.state.signupData = .error msg) :
    handleSignup env w = setLoading false (showMessage "error" msg
      (issue (buildRequest env w.state.token "/auth/signup" "POST" w.state.signupData)
        (setLoading true w))) := by
  have h1 : apiResult env (setLoading true w) "/auth/signup" "POST" w.state.signupData = .error msg := h
  simp only [handleSignup, apiCall, h1]
  rfl

theorem handleSignup_of_ok (env : Env) (w : World) (data : JsVal)
    (h : apiResult env w "/auth/signup" "POST" w.state.signupData = .ok data) :
    handleSignup env w = setLoading false
      (setSignupData emptySignupData (setActiveTab "login"
        (showMessage "success" "Account created successfully! Please login." (issue (buildRequest env w.state.token "/auth/signup" "POST" w.state.signupData)
        (setLoading true w))))) := by
  have h1 : apiResult env (setLoading true w) "/auth/signup" "POST" w.state.signupData = .ok data := h
  simp only [handleSignup, apiCall, h1]
  rfl

theorem handleRecordMatch_of_error (env : Env) (w : World) (msg : String)
    (h : apiResult env w "/games/match" "POST" w.state.matchData = .error msg) :
    handleRecordMatch env w = setLoading false (showMessage "error" msg
      (issue (buildRequest env w.state.token "/games/match" "POST" w.state.matchData)
        (setLoading true w))) := by
  have h1 : apiResult env (setLoading true w) "/games/match" "POST" w.state.matchData = .error msg := h
  simp only [handleRecordMatch, apiCall, h1]
  rfl

theorem handleRecordMatch_of_ok (env : Env) (w : World) (data : JsVal)
    (h : apiResult env w "/games/match" "POST" w.state.matchData = .ok data) :
    handleRecordMatch env w = setLoading false
      (loadPlayerStats env (loadPlayerGames env (setMatchData emptyMatchData
        (showMessage "success" "Match recorded successfully! Stats updated." (issue (buildRequest env w.state.token "/games/match" "POST" w.state.matchData)
        (setLoading true w)))))) := by
  have h1 : apiResult env (setLoading true w) "/games/match" "POST" w.state.matchData = .ok data := h
  simp only [handleRecordMatch, apiCall, h1]
  rfl

theorem handleCreateCharacter_of_error (env : Env) (w : World) (msg : String)
    (h : apiResult env w "/characters" "POST" w.state.newCharacter = .error msg) :
    handleCreateCharacter env w = setLoading false (showMessage "error" msg
      (issue (buildRequest env w.state.token "/characters" "POST" w.state.newCharacter)
        (setLoading true w))) := by
  have h1 : apiResult env (setLoading true w) "/characters" "POST" w.state.newCharacter = .error msg := h
  simp only [handleCreateCharacter, apiCall, h1]
  rfl

theorem handleCreateCharacter_of_ok (env : Env) (w : World) (data : JsVal)
    (h : apiResult env w "/characters" "POST" w.state.newCharacter = .ok data) :
    handleCreateCharacter env w = setLoading false
      (loadCharacters env (setNewCharacter emptyNewCharacter
        (showMessage "success" "Character created successfully!" (issue (buildRequest env w.state.token "/characters" "POST" w.state.newCharacter)
        (setLoading true w))))) := by
  have h1 : apiResult env (setLoading true w) "/characters" "POST" w.state.newCharacter = .ok data := h
  simp only [handleCreateCharacter, apiCall, h1]
  rfl

theorem handleDeleteCharacter_of_error (env : Env) (c : JsVal) (w : World) (msg : String)
    (hc : env.confirm "Are you sure you want to delete this character?" = true)
    (h : apiResult env w ("/characters/" ++ c.toStr) "DELETE" .null = .error msg) :
    handleDeleteCharacter env c w = setLoading false (showMessage "error" msg
      (issue (buildRequest env w.state.token ("/characters/" ++ c.toStr) "DELETE" .null)
        (setLoading true w))) := by
  have h1 : apiResult env (setLoading true w) ("/characters/" ++ c.toStr) "DELETE" .null = .error msg := h
  simp only [handleDeleteCharacter, apiCall, h1, hc]
  rfl

theorem handleDeleteCharacter_of_ok (env : Env) (c : JsVal) (w : World) (data : JsVal)
    (hc : env.confirm "Are you sure you want to delete this character?" = true)
    (h : apiResult env w ("/characters/" ++ c.toStr) "DELETE" .null = .ok data) :
    handleDeleteCharacter env c w = setLoading false
      (loadCharacters env (showMessage "success" "Character deleted successfully!" (issue (buildRequest env w.state.token ("/characters/" ++ c.toStr) "DELETE" .null)
        (setLoading true w)))) := by
  have h1 : apiResult env (setLoading true w) ("/characters/" ++ c.toStr) "DELETE" .null = .ok data := h
  simp only [handleDeleteCharacter, apiCall, h1, hc]
  rfl

theorem handleDeleteCharacter_of_declined (env : Env) (c : JsVal) (w : World)
    (hc : env.confirm "Are you sure you want to delete this character?" = false) :
    handleDeleteCharacter env c w = w := by
  simp only [handleDeleteCharacter, hc]
  rfl

theorem handleSendFriendRequest_of_error (env : Env) (p : JsVal) (w : World) (msg : String)
    (h : apiResult env w "/friends/request" "POST" (.obj [("friend_id", p)]) = .error msg) :
    handleSendFriendRequest env p w = setLoading false (showMessage "error" msg
      (issue (buildRequest env w.state.token "/friends/request" "POST" (.obj [("friend_id", p)]))
        (setLoading true w))) := by
  have h1 : apiResult env (setLoading true w) "/friends/request" "POST" (.obj [("friend_id", p)]) = .error msg := h
  simp only [handleSendFriendRequest, apiCall, h1]
  rfl

theorem handleSendFriendRequest_of_ok (env : Env) (p : JsVal) (w : World) (data : JsVal)
    (h : apiResult env w "/friends/request" "POST" (.obj [("friend_id", p)]) = .ok data) :
    handleSendFriendRequest env p w = setLoading false
      (searchPlayers env (showMessage "success" "Friend request sent!" (issue (buildRequest env w.state.token "/friends/request" "POST" (.obj [("friend_id", p)]))
        (setLoading true w)))) := by
  have h1 : apiResult env (setLoading true w) "/friends/request" "POST" (.obj [("friend_id", p)]) = .ok data := h
  simp only [handleSendFriendRequest, apiCall, h1]
  rfl

theorem handleAcceptFriend_of_error (env : Env) (f : JsVal) (w : World) (msg : String)
    (h : apiResult env w ("/friends/accept/" ++ f.toStr) "PUT" .null = .error msg) :
    handleAcceptFriend env f w = setLoading false (showMessage "error" msg
      (issue (buildRequest env w.state.token ("/friends/accept/" ++ f.toStr) "PUT" .null)
        (setLoading true w))) := by
  have h1 : apiResult env (setLoading true w) ("/friends/accept/" ++ f.toStr) "PUT" .null = .error msg := h
  simp only [handleAcceptFriend, apiCall, h1]
  rfl

theorem handleAcceptFriend_of_ok (env : Env) (f : JsVal) (w : World) (data : JsVal)
    (h : apiResult env w ("/friends/accept/" ++ f.toStr) "PUT" .null = .ok data) :
    handleAcceptFriend env f w = setLoading false
      (loadFriendRequests env (loadFriends env
        (showMessage "success" "Friend request accepted!" (issue (buildRequest env w.state.token ("/friends/accept/" ++ f.toStr) "PUT" .null)
        (setLoading true w))))) := by
  have h1 : apiResult env (setLoading true w) ("/friends/accept/" ++ f.toStr) "PUT" .null = .ok data := h
  simp only [handleAcceptFriend, apiCall, h1]
  rfl

theorem handleRemoveFriend_of_error (env : Env) (f : JsVal) (w : World) (msg : String)
    (hc : env.confirm "Are you sure you want to remove this friend?" = true)
    (h : apiResult env w ("/friends/" ++ f.toStr) "DELETE" .null = .error msg) :
    handleRemoveFriend env f w = setLoading false (showMessage "error" msg
      (issue (buildRequest env w.state.token ("/friends/" ++ f.toStr) "DELETE" .null)
        (setLoading true w))) := by
  have h1 : apiResult env (setLoading true w) ("/friends/" ++ f.toStr) "DELETE" .null = .error msg := h
  simp only [handleRemoveFriend, apiCall, h1, hc]
  rfl

theorem handleRemoveFriend_of_ok (env : Env) (f : JsVal) (w : World) (data : JsVal)
    (hc : env.confirm "Are you sure you want to remove this friend?" = true)
    (h : apiResult env w ("/friends/" ++ f.toStr) "DELETE" .null = .ok data) :
    handleRemoveFriend env f w = setLoading false
      (loadFriends env (showMessage "success" "Friend removed" (issue (buildRequest env w.state.token ("/friends/" ++ f.toStr) "DELETE" .null)
        (setLoading true w)))) := by
  have h1 : apiResult env (setLoading true w) ("/friends/" ++ f.toStr) "DELETE" .null = .ok data := h
  simp only [handleRemoveFriend, apiCall, h1, hc]
  rfl

theorem handleRemoveFriend_of_declined (env : Env) (f : JsVal) (w : World)
    (hc : env.confirm "Are you sure you want to remove this friend?" = false) :
    handleRemoveFriend env f w = w := by
  simp only [handleRemoveFriend, hc]
  rfl

/-! ## What a read leaves alone -/

theorem sessionOf_loadGames (env : Env) (w : World) :
    sessionOf (loadGames env w) = sessionOf w := by
  rw [loadGames_eq]; rfl

theorem sessionOf_loadPlayerGames (env : Env) (w : World) :
    sessionOf (loadPlayerGames env w) = sessionOf w := by
  rw [loadPlayerGames_eq]; rfl

theorem sessionOf_loadPlayerStats (env : Env) (w : World) :
    sessionOf (loadPlayerStats env w) = sessionOf w := by
  rw [loadPlayerStats_eq]; rfl

theorem sessionOf_loadCharacters (env : Env) (w : World) :
    sessionOf (loadCharacters env w) = sessionOf w := by
  rw [loadCharacters_eq]; rfl

theorem sessionOf_loadFriends (env : Env) (w : World) :
    sessionOf (loadFriends env w) = sessionOf w := by
  rw [loadFriends_eq]; rfl

theorem sessionOf_loadFriendRequests (env : Env) (w : World) :
    sessionOf (loadFriendRequests env w) = sessionOf w := by
  rw [loadFriendRequests_eq]; rfl

theorem sessionOf_loadAllData (env : Env) (w : World) :
    sessionOf (loadAllData env w) = sessionOf w := by
  unfold loadAllData
  rw [sessionOf_loadFriendRequests, sessionOf_loadFriends, sessionOf_loadCharacters,
    sessionOf_loadPlayerStats, sessionOf_loadPlayerGames, sessionOf_loadGames]

theorem sessionOf_searchPlayers (env : Env) (w : World) :
    sessionOf (searchPlayers env w) = sessionOf w := by
  unfold searchPlayers apiCall
  split
  · rfl
  · cases apiResult env w _ "GET" .null <;> rfl

theorem sessionOf_rerender (env : Env) (w : World) :
    sessionOf (rerender env w) = sessionOf w := by
  unfold rerender sessionEffect
  split
  · split
    · rw [sessionOf_loadAllData]; rfl
    · rfl
  · rfl

theorem rerender_of_clean (env : Env) (w : World) (h : w.sessionDirty = false) :
    rerender env w = w := by
  simp [rerender, h]

/-! ## localStorage laws -/

theorem getItem_removeItem_same (s : Storage) (k : String) :
    (s.removeItem k).getItem k = none := by
  induction s with
  | nil => rfl
  | cons e rest ih =>
    by_cases h : e.1 = k <;>
      simp_all [Storage.removeItem, Storage.getItem, List.filter_cons, List.find?_cons]

theorem getItem_removeItem_other (s : Storage) (k j : String) (hkj : j ≠ k) :
    (s.removeItem j).getItem k = s.getItem k := by
  have hjk : ¬ k = j := fun h => hkj h.symm
  induction s with
  | nil => rfl
  | cons e rest ih =>
    by_cases h : e.1 = j <;> by_cases hk : e.1 = k <;>
      simp_all [Storage.removeItem, Storage.getItem, List.filter_cons, List.find?_cons]

theorem getItem_setItem_same (s : Storage) (k v : String) :
    (s.setItem k v).getItem k = some v := by
  simp [Storage.setItem, Storage.getItem]

theorem getItem_setItem_other (s : Storage) (k j v : String) (hkj : j ≠ k) :
    (s.setItem j v).getItem k = s.getItem k := by
  have := getItem_removeItem_other s k j hkj
  simpa [Storage.setItem, Storage.getItem, List.find?_cons, hkj] using this

theorem removeItem_idem (s : Storage) (k : String) :
    (s.removeItem k).removeItem k = s.removeItem k := by
  simp [Storage.removeItem, List.filter_filter]

theorem removeItem_comm (s : Storage) (j k : String) :
    (s.removeItem j).removeItem k = (s.removeItem k).removeItem j := by
  simp [Storage.removeItem, List.filter_filter, Bool.and_comm]



/-! ## Trimming -/

theorem dropWhile_eq_nil_of_all {α : Type} (p : α → Bool) :
    ∀ l : List α, (∀ x ∈ l, p x = true) → l.dropWhile p = []
  | [], _ => rfl
  | x :: xs, h => by
    have hx : p x = true := h x (List.mem_cons_self x xs)
    simp only [List.dropWhile_cons, hx, if_true]
    exact dropWhile_eq_nil_of_all p xs (fun y hy => h y (List.mem_cons_of_mem x hy))

theorem jsTrim_blank (s : String) (h : ∀ c ∈ s.data, isJsWhitespace c = true) :
    jsTrim s = "" := by
  unfold jsTrim
  rw [dropWhile_eq_nil_of_all isJsWhitespace s.data h]
  rfl

/-! ## Outcomes -/

theorem loaded_apiResult (env : Env) (w : World) (ep m : String) (body old : JsVal) :
    loaded (apiResult env w ep m body) old =
      ((env.fetch w.requests.length (buildRequest env w.state.token ep m body)).success).getD
        old := by
  unfold apiResult
  cases env.fetch w.requests.length (buildRequest env w.state.token ep m body) with
  | rejected msg => rfl
  | response status r =>
    cases r with
    | error msg => rfl
    | ok data =>
      by_cases hs : 200 ≤ status ∧ status ≤ 299
      · simp [FetchResult.success, hs, loaded]
      · simp only [FetchResult.success, hs, if_false]
        cases getProp env data "error" <;> rfl

theorem getProp_ok_other (env : Env) (v x : JsVal) (k j : String)
    (h : getProp env v k = .ok x) : ∃ y, getProp env v j = .ok y := by
  cases v <;> simp [getProp] at h ⊢

/-! ## Notifications -/

theorem loadAllData_shown (env : Env) (w : World) : (loadAllData env w).shown = w.shown := by
  unfold loadAllData
  rw [loadFriendRequests_eq, loadFriends_eq, loadCharacters_eq, loadPlayerStats_eq,
    loadPlayerGames_eq, loadGames_eq]

theorem searchPlayers_shown (env : Env) (w : World) :
    (searchPlayers env w).shown = w.shown := by
  unfold searchPlayers apiCall
  split
  · rfl
  · cases apiResult env w _ "GET" .null <;> rfl

theorem rerender_shown (env : Env) (w : World) : (rerender env w).shown = w.shown := by
  unfold rerender sessionEffect
  split
  · split
    · rw [loadAllData_shown]
    · rfl
  · rfl

theorem loadAllData_activeTab (env : Env) (w : World) :
    (loadAllData env w).state.activeTab = w.state.activeTab := by
  unfold loadAllData
  rw [loadFriendRequests_eq, loadFriends_eq, loadCharacters_eq, loadPlayerStats_eq,
    loadPlayerGames_eq, loadGames_eq]

theorem rerender_activeTab (env : Env) (w : World) :
    (rerender env w).state.activeTab = w.state.activeTab := by
  unfold rerender sessionEffect
  split
  · split
    · rw [loadAllData_activeTab]
    · rfl
  · rfl

/-! ## A handler whose first call fails -/

theorem handler_of_error (env : Env) (a : Action) (w : World) (ep m : String) (body : JsVal)
    (msg : String)
    (hcall : a.call w.state = some (ep, m, body))
    (hconfirm : ∀ q, a.confirmText = some q → env.confirm q = true)
    (h : apiResult env w ep m body = .error msg) :
    a.handler env w = setLoading false (showMessage "error" msg
      (issue (buildRequest env w.state.token ep m body) (setLoading true w))) := by
  cases a <;> simp only [Action.call, Option.some.injEq, Prod.mk.injEq, reduceCtorEq] at hcall
  case login =>
    obtain ⟨rfl, rfl, rfl⟩ := hcall
    exact handleLogin_of_error env w msg h
  case signup =>
    obtain ⟨rfl, rfl, rfl⟩ := hcall
    exact handleSignup_of_error env w msg h
  case recordMatch =>
    obtain ⟨rfl, rfl, rfl⟩ := hcall
    exact handleRecordMatch_of_error env w msg h
  case createCharacter =>
    obtain ⟨rfl, rfl, rfl⟩ := hcall
    exact handleCreateCharacter_of_error env w msg h
  case deleteCharacter c =>
    obtain ⟨rfl, rfl, rfl⟩ := hcall
    exact handleDeleteCharacter_of_error env c w msg (hconfirm _ rfl) h
  case sendFriendRequest p =>
    obtain ⟨rfl, rfl, rfl⟩ := hcall
    exact handleSendFriendRequest_of_error env p w msg h
  case acceptFriend f =>
    obtain ⟨rfl, rfl, rfl⟩ := hcall
    exact handleAcceptFriend_of_error env f w msg h
  case removeFriend f =>
    obtain ⟨rfl, rfl, rfl⟩ := hcall
    exact handleRemoveFriend_of_error env f w msg (hconfirm _ rfl) h

/-! ## Non-blank terms -/

theorem mem_dropWhile_of_false {α : Type} (p : α → Bool) (x : α) (hx : p x = false) :
    ∀ l : List α, x ∈ l → x ∈ l.dropWhile p
  | [], h => by cases h
  | y :: ys, h => by
    by_cases hy : p y = true
    · have hne : x ≠ y := fun e => by rw [e, hy] at hx; cases hx
      have hmem : x ∈ ys := by
        rcases List.mem_cons.mp h with e | e
        · exact absurd e hne
        · exact e
      simp only [List.dropWhile_cons, hy, if_true]
      exact mem_dropWhile_of_false p x hx ys hmem
    · simp only [List.dropWhile_cons, hy]
      exact h

theorem jsTrim_nonblank (s : String) (h : ∃ c ∈ s.data, isJsWhitespace c = false) :
    (JsVal.str (jsTrim s)).truthy = true := by
  obtain ⟨c, hc, hws⟩ := h
  have h1 : c ∈ s.data.dropWhile isJsWhitespace := mem_dropWhile_of_false _ c hws _ hc
  have h2 : c ∈ ((s.data.dropWhile isJsWhitespace).reverse.dropWhile isJsWhitespace) :=
    mem_dropWhile_of_false _ c hws _ (List.mem_reverse.mpr h1)
  have h3 : c ∈ (jsTrim s).data := by
    unfold jsTrim
    exact List.mem_reverse.mpr h2
  have h4 : jsTrim s ≠ "" := by
    intro e
    rw [e] at h3
    cases h3
  simp [JsVal.truthy, h4]

theorem searchPlayers_eq_of_nonblank (env : Env) (w : World)
    (h : ∃ c ∈ w.state.searchTerm.data, isJsWhitespace c = false) :
    searchPlayers env w =
      { w with
        state := { w.state with
          allPlayers := loaded (apiResult env w
            ("/friends/search?q=" ++ env.encodeURIComponent w.state.searchTerm) "GET" .null)
            w.state.allPlayers }
        requests := w.requests ++ [buildRequest env w.state.token
          ("/friends/search?q=" ++ env.encodeURIComponent w.state.searchTerm) "GET" .null]
        logged := w.logged ++ failureLog "Error searching players:" (apiResult env w
          ("/friends/search?q=" ++ env.encodeURIComponent w.state.searchTerm) "GET" .null) } := by
  unfold searchPlayers apiCall
  rw [jsTrim_nonblank _ h]
  cases apiResult env w
      ("/friends/search?q=" ++ env.encodeURIComponent w.state.searchTerm) "GET" .null <;>
    simp [loaded, failureLog, setAllPlayers, consoleError, issue]

theorem loadAllData_message (env : Env) (w : World) :
    (loadAllData env w).state.message = w.state.message := by
  unfold loadAllData
  rw [loadFriendRequests_eq, loadFriends_eq, loadCharacters_eq, loadPlayerStats_eq,
    loadPlayerGames_eq, loadGames_eq]

theorem rerender_message (env : Env) (w : World) :
    (rerender env w).state.message = w.state.message := by
  unfold rerender sessionEffect
  split
  · split
    · rw [loadAllData_message]
    · rfl
  · rfl

theorem searchPlayers_sessionDirty (env : Env) (w : World) :
    (searchPlayers env w).sessionDirty = w.sessionDirty := by
  unfold searchPlayers apiCall
  split
  · rfl
  · cases apiResult env w _ "GET" .null <;> rfl

theorem searchPlayers_slice (env : Env) (w : World) (s : Slice) (hs : s ≠ .allPlayers) :
    (searchPlayers env w).state.slice s = w.state.slice s := by
  unfold searchPlayers apiCall
  split
  · cases s <;> first | rfl | exact absurd rfl hs
  · cases apiResult env w _ "GET" .null <;> cases s <;> first | rfl | exact absurd rfl hs
/-! ## C1: an Unauthorized failure -/

/-- C1, counterexample. Alice is logged in and the backend answers the read of
the games catalogue with 401: after the read she is still logged in, and the
persisted session is still there. -/
theorem unauthorized_read_keeps_alice :
    (Ref.env [Sample.unauthorized] true).fetch Sample.loggedIn.requests.length
        (Read.request (Ref.env [Sample.unauthorized] true) Sample.loggedIn.state.token .games)
        = .response 401 (.ok (.obj [("error", .str "Invalid or expired token")])) ∧
      (perform (Ref.env [Sample.unauthorized] true) .loadGames Sample.loggedIn).state.currentUser
        = Sample.alice ∧
      (perform (Ref.env [Sample.unauthorized] true) .loadGames Sample.loggedIn).state.token
        = .str "t1" ∧
      (perform (Ref.env [Sample.unauthorized] true) .loadGames Sample.loggedIn).storage.getItem
        "token" = some "t1" ∧
      ((perform (Ref.env [Sample.unauthorized] true) .loadGames Sample.loggedIn).storage.getItem
        "user").isSome = true :=
  ⟨rfl, rfl, rfl, by decide, by decide⟩

/-- C1, amended. For every action that issues a backend call (all but logout),
if its call is answered with 401, the session is left as it was: `currentUser`,
`token` and `localStorage` are unchanged. -/
theorem unauthorized_leaves_session (env : Env) (a : Action) (w : World)
    (ha : a ≠ .logout)
    (h : ∀ r, ∃ body, env.fetch w.requests.length r = .response 401 body) :
    (perform env a w).state.currentUser = w.state.currentUser ∧
      (perform env a w).state.token = w.state.token ∧
      (perform env a w).storage = w.storage := by
  have fail : ∀ ep m body, ∃ msg, apiResult env w ep m body = .error msg := by
    intro ep m body
    obtain ⟨r, hr⟩ := h (buildRequest env w.state.token ep m body)
    exact apiResult_of_status env w ep m body 401 r (by omega) hr
  have key : sessionOf (a.handler env w) = sessionOf w := by
    cases a with
    | logout => exact absurd rfl ha
    | login =>
      obtain ⟨msg, hm⟩ := fail "/auth/login" "POST" w.state.loginData
      exact (congrArg sessionOf (handleLogin_of_error env w msg hm)).trans rfl
    | signup =>
      obtain ⟨msg, hm⟩ := fail "/auth/signup" "POST" w.state.signupData
      exact (congrArg sessionOf (handleSignup_of_error env w msg hm)).trans rfl
    | loadGames => exact sessionOf_loadGames env w
    | loadPlayerGames => exact sessionOf_loadPlayerGames env w
    | loadPlayerStats => exact sessionOf_loadPlayerStats env w
    | loadCharacters => exact sessionOf_loadCharacters env w
    | loadFriends => exact sessionOf_loadFriends env w
    | loadFriendRequests => exact sessionOf_loadFriendRequests env w
    | search => exact sessionOf_searchPlayers env w
    | recordMatch =>
      obtain ⟨msg, hm⟩ := fail "/games/match" "POST" w.state.matchData
      exact (congrArg sessionOf (handleRecordMatch_of_error env w msg hm)).trans rfl
    | createCharacter =>
      obtain ⟨msg, hm⟩ := fail "/characters" "POST" w.state.newCharacter
      exact (congrArg sessionOf (handleCreateCharacter_of_error env w msg hm)).trans rfl
    | deleteCharacter c =>
      obtain ⟨msg, hm⟩ := fail ("/characters/" ++ c.toStr) "DELETE" .null
      cases hc : env.confirm "Are you sure you want to delete this character?" with
      | false => exact congrArg sessionOf (handleDeleteCharacter_of_declined env c w hc)
      | true => exact (congrArg sessionOf (handleDeleteCharacter_of_error env c w msg hc hm)).trans rfl
    | sendFriendRequest p =>
      obtain ⟨msg, hm⟩ := fail "/friends/request" "POST" (.obj [("friend_id", p)])
      exact (congrArg sessionOf (handleSendFriendRequest_of_error env p w msg hm)).trans rfl
    | acceptFriend f =>
      obtain ⟨msg, hm⟩ := fail ("/friends/accept/" ++ f.toStr) "PUT" .null
      exact (congrArg sessionOf (handleAcceptFriend_of_error env f w msg hm)).trans rfl
    | removeFriend f =>
      obtain ⟨msg, hm⟩ := fail ("/friends/" ++ f.toStr) "DELETE" .null
      cases hc : env.confirm "Are you sure you want to remove this friend?" with
      | false => exact congrArg sessionOf (handleRemoveFriend_of_declined env f w hc)
      | true => exact (congrArg sessionOf (handleRemoveFriend_of_error env f w msg hc hm)).trans rfl
  have all : sessionOf (perform env a w) = sessionOf w := by
    unfold perform
    rw [sessionOf_rerender, key]
  simp only [sessionOf, Prod.mk.injEq] at all
  exact all

/-- C1, witness: the record-match action of alice against a backend that
answers 401. -/
theorem unauthorized_leaves_session_witness :
    (Action.recordMatch ≠ Action.logout ∧
      ∀ r, ∃ body, (Ref.env [Sample.unauthorized] true).fetch Sample.recording.requests.length r
        = .response 401 body) ∧
    ((perform (Ref.env [Sample.unauthorized] true) .recordMatch Sample.recording).state.currentUser
        = Sample.recording.state.currentUser ∧
      (perform (Ref.env [Sample.unauthorized] true) .recordMatch Sample.recording).state.token
        = Sample.recording.state.token ∧
      (perform (Ref.env [Sample.unauthorized] true) .recordMatch Sample.recording).storage
        = Sample.recording.storage) :=
  ⟨⟨by simp, fun _ => ⟨_, rfl⟩⟩,
    unauthorized_leaves_session (Ref.env [Sample.unauthorized] true) .recordMatch Sample.recording
      (by simp) (fun _ => ⟨_, rfl⟩)⟩

/-! ## C2: targeted refresh -/

/-- C2. For each mutation of the policy table whose refresh is a set of reads
(record match, create character, delete character, accept friend request,
remove friend), started with no render pending and confirmed where it asks:
when the mutating call succeeds, the requests issued are the mutating call
followed by the reads the table lists, each once and in that order; every cell
of View State not owned by a listed read keeps its content, and so does the
active section. -/
theorem mutation_refreshes_policy_reads (env : Env) (m : Mutation) (w : World) (data : JsVal)
    (hclean : w.sessionDirty = false)
    (hconfirm : ∀ text, m.confirmText = some text → env.confirm text = true)
    (hok : apiResult env w (m.call w.state).1 (m.call w.state).2.1 (m.call w.state).2.2
      = .ok data) :
    (perform env m.toAction w).requests =
        w.requests ++
          (buildRequest env w.state.token (m.call w.state).1 (m.call w.state).2.1
              (m.call w.state).2.2 ::
            (refreshPolicy m).map (Read.request env w.state.token)) ∧
      (∀ s : Slice, (∀ r ∈ refreshPolicy m, r.slice ≠ s) →
        (perform env m.toAction w).state.slice s = w.state.slice s) ∧
      (perform env m.toAction w).state.activeTab = w.state.activeTab := by
  cases m with
  | recordMatch =>
    have e := handleRecordMatch_of_ok env w data hok
    have hp : perform env (Mutation.recordMatch).toAction w = handleRecordMatch env w := by
      show rerender env (handleRecordMatch env w) = _
      apply rerender_of_clean
      rw [e, loadPlayerStats_eq, loadPlayerGames_eq]
      exact hclean
    rw [hp, e, loadPlayerStats_eq, loadPlayerGames_eq]
    refine ⟨?_, ?_, rfl⟩
    · simp [setLoading, setMatchData, setNewCharacter, showMessage, issue, refreshPolicy, Mutation.call]
    · intro s hs
      cases s <;> first | rfl | (exfalso; revert hs; simp [refreshPolicy, Read.slice])
  | createCharacter =>
    have e := handleCreateCharacter_of_ok env w data hok
    have hp : perform env (Mutation.createCharacter).toAction w = handleCreateCharacter env w := by
      show rerender env (handleCreateCharacter env w) = _
      apply rerender_of_clean
      rw [e, loadCharacters_eq]
      exact hclean
    rw [hp, e, loadCharacters_eq]
    refine ⟨?_, ?_, rfl⟩
    · simp [setLoading, setMatchData, setNewCharacter, showMessage, issue, refreshPolicy, Mutation.call]
    · intro s hs
      cases s <;> first | rfl | (exfalso; revert hs; simp [refreshPolicy, Read.slice])
  | deleteCharacter c =>
    have e := handleDeleteCharacter_of_ok env c w data (hconfirm _ rfl) hok
    have hp : perform env (Mutation.deleteCharacter c).toAction w = handleDeleteCharacter env c w := by
      show rerender env (handleDeleteCharacter env c w) = _
      apply rerender_of_clean
      rw [e, loadCharacters_eq]
      exact hclean
    rw [hp, e, loadCharacters_eq]
    refine ⟨?_, ?_, rfl⟩
    · simp [setLoading, setMatchData, setNewCharacter, showMessage, issue, refreshPolicy, Mutation.call]
    · intro s hs
      cases s <;> first | rfl | (exfalso; revert hs; simp [refreshPolicy, Read.slice])
  | acceptFriend f =>
    have e := handleAcceptFriend_of_ok env f w data hok
    have hp : perform env (Mutation.acceptFriend f).toAction w = handleAcceptFriend env f w := by
      show rerender env (handleAcceptFriend env f w) = _
      apply rerender_of_clean
      rw [e, loadFriendRequests_eq, loadFriends_eq]
      exact hclean
    rw [hp, e, loadFriendRequests_eq, loadFriends_eq]
    refine ⟨?_, ?_, rfl⟩
    · simp [setLoading, setMatchData, setNewCharacter, showMessage, issue, refreshPolicy, Mutation.call]
    · intro s hs
      cases s <;> first | rfl | (exfalso; revert hs; simp [refreshPolicy, Read.slice])
  | removeFriend f =>
    have e := handleRemoveFriend_of_ok env f w data (hconfirm _ rfl) hok
    have hp : perform env (Mutation.removeFriend f).toAction w = handleRemoveFriend env f w := by
      show rerender env (handleRemoveFriend env f w) = _
      apply rerender_of_clean
      rw [e, loadFriends_eq]
      exact hclean
    rw [hp, e, loadFriends_eq]
    refine ⟨?_, ?_, rfl⟩
    · simp [setLoading, setMatchData, setNewCharacter, showMessage, issue, refreshPolicy, Mutation.call]
    · intro s hs
      cases s <;> first | rfl | (exfalso; revert hs; simp [refreshPolicy, Read.slice])



/-- C2, witness: alice records the match of §8; the requests are the POST, then
the reads of her games and of her stats, and nothing else. -/
theorem mutation_refreshes_policy_reads_witness :
    (perform (Ref.env Sample.recordingScript true) Mutation.recordMatch.toAction
        Sample.recording).requests =
        Sample.recording.requests ++
          (buildRequest (Ref.env Sample.recordingScript true) Sample.recording.state.token
              (Mutation.recordMatch.call Sample.recording.state).1
              (Mutation.recordMatch.call Sample.recording.state).2.1
              (Mutation.recordMatch.call Sample.recording.state).2.2 ::
            (refreshPolicy .recordMatch).map
              (Read.request (Ref.env Sample.recordingScript true)
                Sample.recording.state.token)) ∧
      (∀ s : Slice, (∀ r ∈ refreshPolicy .recordMatch, r.slice ≠ s) →
        (perform (Ref.env Sample.recordingScript true) Mutation.recordMatch.toAction
          Sample.recording).state.slice s = Sample.recording.state.slice s) ∧
      (perform (Ref.env Sample.recordingScript true) Mutation.recordMatch.toAction
        Sample.recording).state.activeTab = Sample.recording.state.activeTab :=
  mutation_refreshes_policy_reads (Ref.env Sample.recordingScript true) .recordMatch
    Sample.recording (.obj [("message", .str "Match recorded")]) rfl
    (fun _ h => by cases h) rfl

/-! ## C3: blank search -/

/-- C3. For every search term made of whitespace only (the empty term
included) and every prior state, `searchPlayers` issues no request and leaves
`allPlayers` equal to the empty list. -/
theorem searchPlayers_blank (env : Env) (w : World)
    (h : ∀ c ∈ w.state.searchTerm.data, isJsWhitespace c = true) :
    (searchPlayers env w).requests = w.requests ∧
      (searchPlayers env w).state.allPlayers = .arr [] := by
  unfold searchPlayers
  rw [jsTrim_blank _ h]
  simp [JsVal.truthy, setAllPlayers]

/-- C3, witness: the term made of a space, a tab and a line feed, over stale
results. -/
theorem searchPlayers_blank_witness :
    (∀ c ∈ Sample.blankSearch.state.searchTerm.data, isJsWhitespace c = true) ∧
      ((searchPlayers (Ref.env [] true) Sample.blankSearch).requests
          = Sample.blankSearch.requests ∧
        (searchPlayers (Ref.env [] true) Sample.blankSearch).state.allPlayers = .arr []) :=
  ⟨by decide, searchPlayers_blank (Ref.env [] true) Sample.blankSearch (by decide)⟩

/-! ## C4: login -/

theorem handleLogin_of_ok (env : Env) (w : World) (data tok player : JsVal)
    (h : apiResult env w "/auth/login" "POST" w.state.loginData = .ok data)
    (htok : getProp env data "token" = .ok tok)
    (hplayer : getProp env data "player" = .ok player) :
    handleLogin env w =
      setLoading false (setLoginData emptyLoginData
        (showMessage "success" "Login successful!" (setActiveTab "dashboard"
          { setCurrentUser player (setToken tok
              (issue (buildRequest env w.state.token "/auth/login" "POST" w.state.loginData)
                (setLoading true w))) with
            storage := (w.storage.setItem "token" tok.toStr).setItem "user"
              (env.jsonStringify player) }))) := by
  have h1 : apiResult env (setLoading true w) "/auth/login" "POST" w.state.loginData
      = .ok data := h
  simp only [handleLogin, apiCall, h1, htok, hplayer]
  rfl

theorem loadAllData_requests (env : Env) (w : World) :
    (loadAllData env w).requests = w.requests ++
      [Read.games, Read.playerGames, Read.playerStats, Read.characters, Read.friends,
        Read.friendRequests].map (Read.request env w.state.token) := by
  unfold loadAllData
  rw [loadFriendRequests_eq, loadFriends_eq, loadCharacters_eq, loadPlayerStats_eq,
    loadPlayerGames_eq, loadGames_eq]
  simp

/-- C4, counterexample. The login of the scenario of §8 against a backend that
accepts it with the body `{token: "", player: alice}`: the call succeeds, alice
becomes the current user, and the only request ever issued is the login call;
no read of the Bulk Refresh follows. The same holds when the body is
`{token: "t1", player: null}`. -/
theorem login_without_credential_loads_nothing :
    (apiResult (Ref.env Sample.emptyTokenScript true) Sample.loggingIn "/auth/login" "POST"
        Sample.loggingIn.state.loginData
        = .ok (.obj [("token", .str ""), ("player", Sample.alice)]) ∧
      (perform (Ref.env Sample.emptyTokenScript true) .login Sample.loggingIn).state.currentUser
        = Sample.alice ∧
      (perform (Ref.env Sample.emptyTokenScript true) .login Sample.loggingIn).state.token
        = .str "" ∧
      (perform (Ref.env Sample.emptyTokenScript true) .login Sample.loggingIn).requests
        = [buildRequest (Ref.env Sample.emptyTokenScript true) .null "/auth/login" "POST"
            Sample.loginForm]) ∧
    (apiResult (Ref.env Sample.nullPlayerScript true) Sample.loggingIn "/auth/login" "POST"
        Sample.loggingIn.state.loginData
        = .ok (.obj [("token", .str "t1"), ("player", .null)]) ∧
      (perform (Ref.env Sample.nullPlayerScript true) .login Sample.loggingIn).state.currentUser
        = .null ∧
      (perform (Ref.env Sample.nullPlayerScript true) .login Sample.loggingIn).state.token
        = .str "t1" ∧
      (perform (Ref.env Sample.nullPlayerScript true) .login Sample.loggingIn).requests
        = [buildRequest (Ref.env Sample.nullPlayerScript true) .null "/auth/login" "POST"
            Sample.loginForm]) :=
  ⟨⟨rfl, rfl, rfl, rfl⟩, ⟨rfl, rfl, rfl, rfl⟩⟩

/-- C4, amended. For every login attempt whose `POST /auth/login` succeeds with
a body whose `token` is a non-empty string `t` and whose `player` is an object
`p`: afterwards the in-memory token is `t` and the current user is `p`, the
persisted token is `t` and the persisted user is the serialisation of `p`, and
the requests issued are the login call followed by the six reads of one Bulk
Refresh, each once, under the new token. -/
theorem login_establishes_session (env : Env) (w : World) (data p : JsVal) (t : String)
    (hcall : apiResult env w "/auth/login" "POST" w.state.loginData = .ok data)
    (htoken : getProp env data "token" = .ok (.str t))
    (hplayer : getProp env data "player" = .ok p)
    (ht : t ≠ "")
    (hp : ∃ fields, p = .obj fields) :
    (perform env .login w).state.token = .str t ∧
      (perform env .login w).state.currentUser = p ∧
      (perform env .login w).storage.getItem "token" = some t ∧
      (perform env .login w).storage.getItem "user" = some (env.jsonStringify p) ∧
      (perform env .login w).requests = w.requests ++
        (buildRequest env w.state.token "/auth/login" "POST" w.state.loginData ::
          [Read.games, Read.playerGames, Read.playerStats, Read.characters, Read.friends,
            Read.friendRequests].map (Read.request env (.str t))) := by
  obtain ⟨fields, rfl⟩ := hp
  have e := handleLogin_of_ok env w data (.str t) (.obj fields) hcall htoken hplayer
  have hperform : perform env .login w = loadAllData env
      { handleLogin env w with sessionDirty := false } := by
    show rerender env (handleLogin env w) = _
    rw [e]
    simp [rerender, sessionEffect, setLoading, setLoginData, showMessage, setActiveTab,
      setCurrentUser, setToken, issue, JsVal.objectIs, JsVal.truthy, ht]
  have hs : sessionOf (perform env .login w) = sessionOf (handleLogin env w) := by
    rw [hperform, sessionOf_loadAllData]
    rfl
  have hs2 : sessionOf (handleLogin env w) = (.obj fields, .str t,
      (w.storage.setItem "token" t).setItem "user" (env.jsonStringify (.obj fields))) := by
    rw [e]
    rfl
  rw [hs2] at hs
  simp only [sessionOf, Prod.mk.injEq] at hs
  obtain ⟨h1, h2, h3⟩ := hs
  refine ⟨h2, h1, ?_, ?_, ?_⟩
  · rw [h3, getItem_setItem_other _ _ _ _ (by decide), getItem_setItem_same]
  · rw [h3, getItem_setItem_same]
  · rw [hperform, loadAllData_requests, e]
    simp [setLoading, setLoginData, showMessage, setActiveTab, setCurrentUser, setToken, issue]

/-- C4, witness: the scenario of §8; the persisted token is `t1`. -/
theorem login_establishes_session_witness :
    (perform (Ref.env Sample.loginScript true) .login Sample.loggingIn).state.token
        = .str "t1" ∧
      (perform (Ref.env Sample.loginScript true) .login Sample.loggingIn).state.currentUser
        = Sample.alice ∧
      (perform (Ref.env Sample.loginScript true) .login Sample.loggingIn).storage.getItem "token"
        = some "t1" ∧
      (perform (Ref.env Sample.loginScript true) .login Sample.loggingIn).storage.getItem "user"
        = some ((Ref.env Sample.loginScript true).jsonStringify Sample.alice) ∧
      (perform (Ref.env Sample.loginScript true) .login Sample.loggingIn).requests
        = Sample.loggingIn.requests ++
          (buildRequest (Ref.env Sample.loginScript true) Sample.loggingIn.state.token
              "/auth/login" "POST" Sample.loggingIn.state.loginData ::
            [Read.games, Read.playerGames, Read.playerStats, Read.characters, Read.friends,
              Read.friendRequests].map (Read.request (Ref.env Sample.loginScript true)
                (.str "t1"))) :=
  login_establishes_session (Ref.env Sample.loginScript true) Sample.loggingIn
    (.obj [("token", .str "t1"), ("player", Sample.alice)]) Sample.alice "t1"
    rfl rfl rfl (by decide) ⟨_, rfl⟩

/-! ## C5: deleting a character -/

/-- C5. For every character id `c`, with no render pending: if the user
declines the confirmation, the action leaves the world as it was (no request,
no state change); if the user confirms and the `DELETE` succeeds, the requests
issued are `DELETE /characters/c` and then `GET /characters`, once each. -/
theorem deleteCharacter_asks_first (env : Env) (c : JsVal) (w : World)
    (hclean : w.sessionDirty = false) :
    (env.confirm "Are you sure you want to delete this character?" = false →
      perform env (.deleteCharacter c) w = w) ∧
    (env.confirm "Are you sure you want to delete this character?" = true →
      ∀ data, apiResult env w ("/characters/" ++ c.toStr) "DELETE" .null = .ok data →
        (perform env (.deleteCharacter c) w).requests = w.requests ++
          [{ url := API_URL ++ ("/characters/" ++ c.toStr), method := "DELETE",
              headers := requestHeaders w.state.token, body := none },
            { url := API_URL ++ "/characters", method := "GET",
              headers := requestHeaders w.state.token, body := none }]) := by
  constructor
  · intro hno
    show rerender env (handleDeleteCharacter env c w) = w
    rw [handleDeleteCharacter_of_declined env c w hno]
    exact rerender_of_clean env w hclean
  · intro hyes data hok
    have e := handleDeleteCharacter_of_ok env c w data hyes hok
    have hperform : perform env (.deleteCharacter c) w = handleDeleteCharacter env c w := by
      show rerender env (handleDeleteCharacter env c w) = _
      apply rerender_of_clean
      rw [e, loadCharacters_eq]
      exact hclean
    rw [hperform, e, loadCharacters_eq]
    simp [setLoading, showMessage, issue, Read.request, Read.endpoint, buildRequest,
      JsVal.truthy]

/-- C5, witness: character id 7. Declined, nothing happens; confirmed, the
requests are `DELETE /characters/7` and then `GET /characters`. -/
theorem deleteCharacter_asks_first_witness :
    perform (Ref.env Sample.deletionScript false) (.deleteCharacter (.num "7")) Sample.loggedIn
        = Sample.loggedIn ∧
      ((perform (Ref.env Sample.deletionScript true) (.deleteCharacter (.num "7"))
          Sample.loggedIn).requests.map (fun r => (r.method, r.url, r.body))
        = [("DELETE", "http://localhost:5000/api/characters/7", none),
            ("GET", "http://localhost:5000/api/characters", none)]) :=
  ⟨(deleteCharacter_asks_first (Ref.env Sample.deletionScript false) (.num "7")
      Sample.loggedIn rfl).1 rfl,
    by
      rw [(deleteCharacter_asks_first (Ref.env Sample.deletionScript true) (.num "7")
        Sample.loggedIn rfl).2 rfl (.obj [("message", .str "Character deleted")]) rfl]
      decide⟩

/-! ## C6: token and player together -/

/-- C6, the code at the failing input. Over a storage that holds `token` and no
`user`, the first render has a token and no current player, and mounting
changes nothing: the component stays with a token and without a player. -/
theorem mount_keeps_token_without_player :
    (initialWorld Sample.tokenOnly).state.token = .str "abc" ∧
      (initialWorld Sample.tokenOnly).state.currentUser = .null ∧
      mount (Ref.env [] true) Sample.tokenOnly = .ok (initialWorld Sample.tokenOnly) :=
  ⟨rfl, rfl, rfl⟩

/-! ## C7: logout -/

theorem handleLogout_eq (w : World) :
    handleLogout w =
      { w with
        state := { w.state with
          currentUser := .null
          token := .null
          activeTab := "login"
          message := ⟨"success", "Logged out successfully"⟩ }
        storage := (w.storage.removeItem "token").removeItem "user"
        shown := w.shown ++ [⟨"success", "Logged out successfully"⟩]
        timers := w.timers + 1
        sessionDirty := (w.sessionDirty || !(JsVal.objectIs w.state.currentUser .null)) ||
          !(JsVal.objectIs w.state.token .null) } := rfl

theorem perform_logout_eq (env : Env) (w : World) :
    perform env .logout w = { handleLogout w with sessionDirty := false } := by
  show rerender env (handleLogout w) = _
  rw [handleLogout_eq]
  unfold rerender sessionEffect
  split
  · rfl
  · rename_i h
    simp only [Bool.not_eq_true] at h
    simp only [h]

/-- C7, counterexample. Alice logs out with the games catalogue, her
characters and her friends on display: after the logout the three cells hold
what they held, none of them the empty list. -/
theorem logout_keeps_view_state :
    (perform (Ref.env [] true) .logout Sample.loggedIn).state.games
        = .arr [.obj [("game_id", .num "5"), ("title", .str "Chess")]] ∧
      (perform (Ref.env [] true) .logout Sample.loggedIn).state.characters
        = .arr [.obj [("character_id", .num "7"), ("character_name", .str "Nyx")]] ∧
      (perform (Ref.env [] true) .logout Sample.loggedIn).state.friends
        = .arr [.obj [("player_id", .num "2"), ("username", .str "bob")]] ∧
      (perform (Ref.env [] true) .logout Sample.loggedIn).state.games ≠ .arr [] :=
  ⟨rfl, rfl, rfl, fun h => by
    have h2 : JsVal.arr [.obj [("game_id", .num "5"), ("title", .str "Chess")]] = .arr [] := h
    simp at h2⟩

/-- C7, amended. For every state, explicit logout leaves the Credential Store
cleared (token and current user absent in memory, keys `token` and `user`
absent in persisted storage) and shows the login section; every cell of View
State keeps the content it had. -/
theorem logout_clears_credentials (env : Env) (w : World) :
    (perform env .logout w).state.currentUser = .null ∧
      (perform env .logout w).state.token = .null ∧
      (perform env .logout w).storage.getItem "token" = none ∧
      (perform env .logout w).storage.getItem "user" = none ∧
      (perform env .logout w).state.activeTab = "login" ∧
      ∀ s : Slice, (perform env .logout w).state.slice s = w.state.slice s := by
  rw [perform_logout_eq, handleLogout_eq]
  refine ⟨rfl, rfl, ?_, ?_, rfl, ?_⟩
  · show ((w.storage.removeItem "token").removeItem "user").getItem "token" = none
    rw [getItem_removeItem_other _ _ _ (by decide), getItem_removeItem_same]
  · show ((w.storage.removeItem "token").removeItem "user").getItem "user" = none
    rw [getItem_removeItem_same]
  · intro s
    cases s <;> rfl

/-! ## C8: loading the persisted session -/

/-- C8, the code at the failing input. Over a storage whose `user` is the text
of an opening brace, `JSON.parse` throws inside the mount effect and nothing
catches it: mounting ends with the exception. -/
theorem mount_throws_on_malformed_user :
    Sample.malformed.getItem "user" = some "\x7b" ∧
      mount (Ref.env [] true) Sample.malformed = .error "SyntaxError" :=
  ⟨rfl, rfl⟩

/-! ## C9: clearing twice -/

/-- C9. For every state, logging out twice leaves the same persisted storage
and the same in-memory session as logging out once: keys `token` and `user`
absent, token and current user absent. -/
theorem logout_idempotent (env : Env) (w : World) :
    (perform env .logout (perform env .logout w)).storage = (perform env .logout w).storage ∧
      (perform env .logout (perform env .logout w)).state.token
        = (perform env .logout w).state.token ∧
      (perform env .logout (perform env .logout w)).state.currentUser
        = (perform env .logout w).state.currentUser ∧
      (perform env .logout w).storage.getItem "token" = none ∧
      (perform env .logout w).storage.getItem "user" = none ∧
      (perform env .logout w).state.token = .null ∧
      (perform env .logout w).state.currentUser = .null := by
  have hst : ∀ v : World, (perform env .logout v).storage
      = (v.storage.removeItem "token").removeItem "user" := by
    intro v
    rw [perform_logout_eq, handleLogout_eq]
  refine ⟨?_, ?_, ?_, ?_, ?_, ?_, ?_⟩
  · rw [hst (perform env .logout w), hst w]
    simp only [Storage.removeItem, List.filter_filter]
    congr 1
    funext a
    cases (a.1 == "user") <;> cases (a.1 == "token") <;> rfl
  · rw [perform_logout_eq, perform_logout_eq]; rfl
  · rw [perform_logout_eq, perform_logout_eq]; rfl
  · rw [hst w, getItem_removeItem_other _ _ _ (by decide), getItem_removeItem_same]
  · rw [hst w, getItem_removeItem_same]
  · rw [perform_logout_eq]; rfl
  · rw [perform_logout_eq]; rfl

/-! ## C10: the bearer token -/

/-- C10, counterexample. Over a storage that holds `token` and no `user` the
mounted component has no current player, and the login request it builds
carries `Authorization: Bearer abc`. -/
theorem stale_token_sent_without_player :
    mount (Ref.env [] true) Sample.tokenOnly = .ok (initialWorld Sample.tokenOnly) ∧
      (initialWorld Sample.tokenOnly).state.currentUser = .null ∧
      (apiCall (Ref.env [] true) (initialWorld Sample.tokenOnly) "/auth/login" "POST"
          Sample.loginForm).2.requests.map (fun r => List.lookup "Authorization" r.headers)
        = [some "Bearer abc"] :=
  ⟨rfl, rfl, by decide⟩

/-- C10, amended. For every request built by `apiCall` (any endpoint, method
and body), the header depends on the in-memory token alone: if the token is a
non-empty string `t`, the headers contain `Authorization` equal to `Bearer `
followed by `t`; if the token is absent or empty, the request carries no
`Authorization` header. -/
theorem authorization_follows_token (env : Env) (w : World) (endpoint method : String)
    (body : JsVal) :
    (apiCall env w endpoint method body).2.requests
        = w.requests ++ [buildRequest env w.state.token endpoint method body] ∧
      (∀ t, w.state.token = .str t → t ≠ "" →
        List.lookup "Authorization" (buildRequest env w.state.token endpoint method body).headers
          = some ("Bearer " ++ t)) ∧
      (w.state.token.truthy = false →
        List.lookup "Authorization" (buildRequest env w.state.token endpoint method body).headers
          = none) := by
  refine ⟨rfl, ?_, ?_⟩
  · intro t ht hne
    simp [buildRequest, requestHeaders, ht, JsVal.truthy, JsVal.toStr, hne, List.lookup]
  · intro hfalse
    simp [buildRequest, requestHeaders, hfalse, List.lookup]

/-- C10, witness: alice, logged in with token `t1`, reads her characters with
`Authorization: Bearer t1`; an anonymous visitor logs in with no such header. -/
theorem authorization_follows_token_witness :
    List.lookup "Authorization" (buildRequest (Ref.env [] true) Sample.loggedIn.state.token
        "/characters" "GET" .null).headers = some ("Bearer " ++ "t1") ∧
      List.lookup "Authorization" (buildRequest (Ref.env [] true) Sample.loggingIn.state.token
        "/auth/login" "POST" Sample.loginForm).headers = none :=
  ⟨(authorization_follows_token (Ref.env [] true) Sample.loggedIn "/characters" "GET" .null).2.1
      "t1" rfl (by decide),
    (authorization_follows_token (Ref.env [] true) Sample.loggingIn "/auth/login" "POST"
      Sample.loginForm).2.2 rfl⟩

/-! ## C11: failures inside a Bulk Refresh -/

/-- C11. In a Bulk Refresh, whatever subset of the six reads fails: the six
requests are all issued, in the order of `loadAllData`; the cell of each read
holds the body of its response if the read succeeded and what it held before
the refresh if the read failed; no notification is shown, and `loadAllData`,
a total function, returns. -/
theorem bulk_refresh_isolates_failures (env : Env) (w : World) :
    (loadAllData env w).requests = w.requests ++
        [Read.games, Read.playerGames, Read.playerStats, Read.characters, Read.friends,
          Read.friendRequests].map (Read.request env w.state.token) ∧
      (∀ r : Read, (loadAllData env w).state.slice r.slice =
        ((env.fetch (w.requests.length + r.index) (r.request env w.state.token)).success).getD
          (w.state.slice r.slice)) ∧
      (loadAllData env w).shown = w.shown := by
  refine ⟨loadAllData_requests env w, ?_, loadAllData_shown env w⟩
  intro r
  unfold loadAllData
  rw [loadFriendRequests_eq, loadFriends_eq, loadCharacters_eq, loadPlayerStats_eq,
    loadPlayerGames_eq, loadGames_eq]
  simp only [loaded_apiResult]
  cases r <;> simp [State.slice, Read.slice, Read.index, Read.request, Read.endpoint]

/-! ## C12: one notification per action -/

/-- C12, counterexample. Alice searches for `carol`. When the backend finds
carol the results are replaced and no notification is shown; when the backend
fails, no notification is shown either and the failure is only logged. -/
theorem search_shows_no_notification :
    (perform (Ref.env Sample.searchHit true) .search Sample.searching).state.allPlayers
        = .arr [Sample.carol] ∧
      (perform (Ref.env Sample.searchHit true) .search Sample.searching).shown = [] ∧
      (perform (Ref.env Sample.searchDown true) .search Sample.searching).shown = [] ∧
      (perform (Ref.env Sample.searchDown true) .search Sample.searching).logged
        = [("Error searching players:", "Database unavailable")] :=
  ⟨rfl, rfl, rfl, by decide⟩

/-- C12, amended. Each of login, signup, logout, record match, create
character, delete character, send friend request, accept friend request and
remove friend (the two that ask, once the user has confirmed) surfaces exactly
one notification through `showMessage`: logout its success message; the
others the message of the error when the first call fails, the message of the
error when a login answer has no readable `token`, and their success message
otherwise. Player search shows none. -/
theorem handler_shows_one_notification (env : Env) (a : Action) (w : World) (text : String)
    (htext : a.successText = some text)
    (hconfirm : ∀ q, a.confirmText = some q → env.confirm q = true) :
    (a.call w.state = none → (perform env a w).shown = w.shown ++ [⟨"success", text⟩]) ∧
      (∀ ep m body, a.call w.state = some (ep, m, body) →
        (∀ msg, apiResult env w ep m body = .error msg →
          (perform env a w).shown = w.shown ++ [⟨"error", msg⟩]) ∧
        (∀ data msg, a = .login → apiResult env w ep m body = .ok data →
          getProp env data "token" = .error msg →
          (perform env a w).shown = w.shown ++ [⟨"error", msg⟩]) ∧
        (∀ data, apiResult env w ep m body = .ok data →
          (a = .login → ∃ tok, getProp env data "token" = .ok tok) →
          (perform env a w).shown = w.shown ++ [⟨"success", text⟩])) ∧
      (perform env .search w).shown = w.shown := by
  have hsearch : (perform env .search w).shown = w.shown := by
    show (rerender env (searchPlayers env w)).shown = _
    rw [rerender_shown, searchPlayers_shown]
  refine ⟨?_, ?_, hsearch⟩
  all_goals
    have hsh : (perform env a w).shown = (a.handler env w).shown := rerender_shown env _
    rw [hsh]
  · intro hnone
    cases a <;> simp only [Action.call, reduceCtorEq] at hnone <;>
      simp only [Action.successText, reduceCtorEq, Option.some.injEq] at htext
    subst htext
    rfl
  · intro ep m body hcall
    refine ⟨?_, ?_, ?_⟩
    · intro msg herr
      rw [handler_of_error env a w ep m body msg hcall hconfirm herr]
      rfl
    · intro data msg hlogin hok htok
      subst hlogin
      simp only [Action.call, Option.some.injEq, Prod.mk.injEq] at hcall
      obtain ⟨rfl, rfl, rfl⟩ := hcall
      have hok1 : apiResult env (setLoading true w) "/auth/login" "POST" w.state.loginData
          = .ok data := hok
      show (handleLogin env w).shown = _
      simp only [handleLogin, apiCall, hok1, htok]
      rfl
    · intro data hok hlogin
      cases a with
      | login =>
        simp only [Action.call, Option.some.injEq, Prod.mk.injEq] at hcall
        simp only [Action.successText, Option.some.injEq] at htext
        obtain ⟨rfl, rfl, rfl⟩ := hcall
        subst htext
        obtain ⟨tok, htok⟩ := hlogin rfl
        obtain ⟨player, hplayer⟩ := getProp_ok_other env data tok "token" "player" htok
        show (handleLogin env w).shown = _
        rw [handleLogin_of_ok env w data tok player hok htok hplayer]
        rfl
      | signup =>
        simp only [Action.call, Option.some.injEq, Prod.mk.injEq] at hcall
        simp only [Action.successText, Option.some.injEq] at htext
        obtain ⟨rfl, rfl, rfl⟩ := hcall
        subst htext
        show (handleSignup env w).shown = _
        rw [handleSignup_of_ok env w data hok]
        rfl
      | recordMatch =>
        simp only [Action.call, Option.some.injEq, Prod.mk.injEq] at hcall
        simp only [Action.successText, Option.some.injEq] at htext
        obtain ⟨rfl, rfl, rfl⟩ := hcall
        subst htext
        show (handleRecordMatch env w).shown = _
        rw [handleRecordMatch_of_ok env w data hok, loadPlayerStats_eq, loadPlayerGames_eq]
        rfl
      | createCharacter =>
        simp only [Action.call, Option.some.injEq, Prod.mk.injEq] at hcall
        simp only [Action.successText, Option.some.injEq] at htext
        obtain ⟨rfl, rfl, rfl⟩ := hcall
        subst htext
        show (handleCreateCharacter env w).shown = _
        rw [handleCreateCharacter_of_ok env w data hok, loadCharacters_eq]
        rfl
      | deleteCharacter c =>
        simp only [Action.call, Option.some.injEq, Prod.mk.injEq] at hcall
        simp only [Action.successText, Option.some.injEq] at htext
        obtain ⟨rfl, rfl, rfl⟩ := hcall
        subst htext
        show (handleDeleteCharacter env c w).shown = _
        rw [handleDeleteCharacter_of_ok env c w data (hconfirm _ rfl) hok, loadCharacters_eq]
        rfl
      | sendFriendRequest p =>
        simp only [Action.call, Option.some.injEq, Prod.mk.injEq] at hcall
        simp only [Action.successText, Option.some.injEq] at htext
        obtain ⟨rfl, rfl, rfl⟩ := hcall
        subst htext
        show (handleSendFriendRequest env p w).shown = _
        rw [handleSendFriendRequest_of_ok env p w data hok]
        show (searchPlayers env _).shown = _
        rw [searchPlayers_shown]
        rfl
      | acceptFriend f =>
        simp only [Action.call, Option.some.injEq, Prod.mk.injEq] at hcall
        simp only [Action.successText, Option.some.injEq] at htext
        obtain ⟨rfl, rfl, rfl⟩ := hcall
        subst htext
        show (handleAcceptFriend env f w).shown = _
        rw [handleAcceptFriend_of_ok env f w data hok, loadFriendRequests_eq, loadFriends_eq]
        rfl
      | removeFriend f =>
        simp only [Action.call, Option.some.injEq, Prod.mk.injEq] at hcall
        simp only [Action.successText, Option.some.injEq] at htext
        obtain ⟨rfl, rfl, rfl⟩ := hcall
        subst htext
        show (handleRemoveFriend env f w).shown = _
        rw [handleRemoveFriend_of_ok env f w data (hconfirm _ rfl) hok, loadFriends_eq]
        rfl
      | _ => simp only [Action.call, reduceCtorEq] at hcall

/-- C12, witness: a signup the backend rejects shows the message of the
rejection, once; the match of §8, accepted, shows its success message, once. -/
theorem handler_shows_one_notification_witness :
    (perform (Ref.env Sample.rejecting true) .signup Sample.loggingIn).shown
        = Sample.loggingIn.shown ++ [⟨"error", "Username already exists"⟩] ∧
      (perform (Ref.env Sample.recordingScript true) .recordMatch Sample.recording).shown
        = Sample.recording.shown ++
          [⟨"success", "Match recorded successfully! Stats updated."⟩] :=
  ⟨((handler_shows_one_notification (Ref.env Sample.rejecting true) .signup Sample.loggingIn
      "Account created successfully! Please login." rfl (fun _ h => by cases h)).2.1
        "/auth/signup" "POST" Sample.loggingIn.state.signupData rfl).1
        "Username already exists" rfl,
    ((handler_shows_one_notification (Ref.env Sample.recordingScript true) .recordMatch
      Sample.recording "Match recorded successfully! Stats updated." rfl
      (fun _ h => by cases h)).2.1
        "/games/match" "POST" Sample.recording.state.matchData rfl).2.2
        (.obj [("message", .str "Match recorded")]) rfl (fun h => by cases h)⟩

/-! ## C13: the message of a client error -/

/-- C13, counterexample. A signup answered with status 400 and the body
`{error: ""}`: `apiCall` fails with the message `Something went wrong`, and
that, not the empty string the backend sent, is what the handler shows. -/
theorem empty_error_is_replaced :
    (Ref.env Sample.rejectingSilently true).fetch Sample.loggingIn.requests.length
        (buildRequest (Ref.env Sample.rejectingSilently true) Sample.loggingIn.state.token
          "/auth/signup" "POST" Sample.loggingIn.state.signupData)
        = .response 400 (.ok (.obj [("error", .str "")])) ∧
      apiResult (Ref.env Sample.rejectingSilently true) Sample.loggingIn "/auth/signup" "POST"
        Sample.loggingIn.state.signupData = .error "Something went wrong" ∧
      (perform (Ref.env Sample.rejectingSilently true) .signup Sample.loggingIn).shown
        = [⟨"error", "Something went wrong"⟩] :=
  ⟨rfl, rfl, by decide⟩

/-- C13, amended. For every 4xx response whose JSON body carries an `error`
that is a non-empty string `m`, `apiCall` fails with an error whose message is
exactly `m`, and the handler that made the call (having confirmed, where it
asks) shows exactly `m` as an error notification. -/
theorem client_error_shown_verbatim (env : Env) (w : World) (ep method : String)
    (body data : JsVal) (status : Nat) (m : String)
    (hfetch : env.fetch w.requests.length (buildRequest env w.state.token ep method body)
      = .response status (.ok data))
    (h4xx : 400 ≤ status ∧ status ≤ 499)
    (herror : getProp env data "error" = .ok (.str m))
    (hm : m ≠ "") :
    apiResult env w ep method body = .error m ∧
      ∀ a : Action, a.call w.state = some (ep, method, body) →
        (∀ q, a.confirmText = some q → env.confirm q = true) →
        (perform env a w).shown = w.shown ++ [⟨"error", m⟩] ∧
          (perform env a w).state.message = ⟨"error", m⟩ := by
  have hres : apiResult env w ep method body = .error m := by
    unfold apiResult
    rw [hfetch]
    have hs : ¬ (200 ≤ status ∧ status ≤ 299) := by omega
    simp [hs, herror, JsVal.truthy, JsVal.toStr, hm]
  refine ⟨hres, ?_⟩
  intro a hcall hconfirm
  have hh := handler_of_error env a w ep method body m hcall hconfirm hres
  constructor
  · show (rerender env (a.handler env w)).shown = _
    rw [rerender_shown, hh]
    rfl
  · show (rerender env (a.handler env w)).state.message = _
    rw [rerender_message, hh]
    rfl

/-- C13, witness: a signup answered with status 400 and the body
`{error: "Username already exists"}`. -/
theorem client_error_shown_verbatim_witness :
    apiResult (Ref.env Sample.rejecting true) Sample.loggingIn "/auth/signup" "POST"
        Sample.loggingIn.state.signupData = .error "Username already exists" ∧
      ((perform (Ref.env Sample.rejecting true) .signup Sample.loggingIn).shown
          = Sample.loggingIn.shown ++ [⟨"error", "Username already exists"⟩] ∧
        (perform (Ref.env Sample.rejecting true) .signup Sample.loggingIn).state.message
          = ⟨"error", "Username already exists"⟩) :=
  ⟨(client_error_shown_verbatim (Ref.env Sample.rejecting true) Sample.loggingIn
      "/auth/signup" "POST" Sample.loggingIn.state.signupData
      (.obj [("error", .str "Username already exists")]) 400 "Username already exists"
      rfl (by decide) rfl (by decide)).1,
    (client_error_shown_verbatim (Ref.env Sample.rejecting true) Sample.loggingIn
      "/auth/signup" "POST" Sample.loggingIn.state.signupData
      (.obj [("error", .str "Username already exists")]) 400 "Username already exists"
      rfl (by decide) rfl (by decide)).2 .signup rfl (fun _ h => by cases h)⟩

/-! ## C14: sending a friend request -/

/-- C14. For every player id and every current search term `s`, with no
render pending: when the send-friend-request call succeeds, the handler
re-runs the search with `s` and refreshes nothing else. If `s` is not blank,
the requests issued are the `POST` and then one
`GET /friends/search?q=<URI-encoded s>`, and the search results are the body of
that read when it succeeds (what they were when it fails); if `s` is blank, the
`POST` is the only request and the search results are empty. The other cells
of View State keep their content. -/
theorem sendFriendRequest_reruns_search (env : Env) (p : JsVal) (w : World) (data : JsVal)
    (hclean : w.sessionDirty = false)
    (hok : apiResult env w "/friends/request" "POST" (.obj [("friend_id", p)]) = .ok data) :
    ((∃ c ∈ w.state.searchTerm.data, isJsWhitespace c = false) →
        (perform env (.sendFriendRequest p) w).requests = w.requests ++
            [buildRequest env w.state.token "/friends/request" "POST" (.obj [("friend_id", p)]),
              buildRequest env w.state.token
                ("/friends/search?q=" ++ env.encodeURIComponent w.state.searchTerm) "GET"
                .null] ∧
          (perform env (.sendFriendRequest p) w).state.allPlayers =
            ((env.fetch (w.requests.length + 1) (buildRequest env w.state.token
              ("/friends/search?q=" ++ env.encodeURIComponent w.state.searchTerm) "GET"
              .null)).success).getD w.state.allPlayers) ∧
      ((∀ c ∈ w.state.searchTerm.data, isJsWhitespace c = true) →
        (perform env (.sendFriendRequest p) w).requests = w.requests ++
            [buildRequest env w.state.token "/friends/request" "POST"
              (.obj [("friend_id", p)])] ∧
          (perform env (.sendFriendRequest p) w).state.allPlayers = .arr []) ∧
      ∀ s : Slice, s ≠ .allPlayers →
        (perform env (.sendFriendRequest p) w).state.slice s = w.state.slice s := by
  have e := handleSendFriendRequest_of_ok env p w data hok
  have hdirty : (handleSendFriendRequest env p w).sessionDirty = false := by
    rw [e]
    show (searchPlayers env _).sessionDirty = false
    rw [searchPlayers_sessionDirty]
    exact hclean
  have hperform : perform env (.sendFriendRequest p) w = handleSendFriendRequest env p w :=
    rerender_of_clean env _ hdirty
  rw [hperform, e]
  refine ⟨?_, ?_, ?_⟩
  · intro hs
    have hs2 : ∃ c ∈ (showMessage "success" "Friend request sent!"
        (issue (buildRequest env w.state.token "/friends/request" "POST"
          (.obj [("friend_id", p)])) (setLoading true w))).state.searchTerm.data,
        isJsWhitespace c = false := hs
    rw [searchPlayers_eq_of_nonblank env _ hs2]
    simp only [loaded_apiResult]
    simp [setLoading, showMessage, issue]
  · intro hs
    have hs2 : ∀ c ∈ (showMessage "success" "Friend request sent!"
        (issue (buildRequest env w.state.token "/friends/request" "POST"
          (.obj [("friend_id", p)])) (setLoading true w))).state.searchTerm.data,
        isJsWhitespace c = true := hs
    have hb := jsTrim_blank _ hs2
    unfold searchPlayers
    rw [hb]
    simp [JsVal.truthy, setAllPlayers, setLoading, showMessage, issue]
  · intro s hs
    show (searchPlayers env _).state.slice s = _
    rw [searchPlayers_slice env _ s hs]
    rfl

/-- C14, witness: alice, with `carol` typed in the search box, sends a friend
request to player 3; the requests are the `POST` and the search for `carol`,
and the results are what that search returned. -/
theorem sendFriendRequest_reruns_search_witness :
    (perform (Ref.env Sample.requestThenHit true) (.sendFriendRequest (.num "3"))
        Sample.searching).requests.map (fun r => (r.method, r.url))
        = [("POST", "http://localhost:5000/api/friends/request"),
            ("GET", "http://localhost:5000/api/friends/search?q=carol")] ∧
      (perform (Ref.env Sample.requestThenHit true) (.sendFriendRequest (.num "3"))
        Sample.searching).state.allPlayers = .arr [Sample.carol] :=
  ⟨by
      rw [((sendFriendRequest_reruns_search (Ref.env Sample.requestThenHit true) (.num "3")
        Sample.searching (.obj [("message", .str "Friend request sent")]) rfl rfl).1
        ⟨'c', by decide, by decide⟩).1]
      decide,
    by
      rw [((sendFriendRequest_reruns_search (Ref.env Sample.requestThenHit true) (.num "3")
        Sample.searching (.obj [("message", .str "Friend request sent")]) rfl rfl).1
        ⟨'c', by decide, by decide⟩).2]
      rfl⟩

/-! ## C15: the state after mount -/

theorem mount_of_both (env : Env) (storage : Storage) (t u : String) (p : JsVal)
    (ht : storage.getItem "token" = some t) (hu : storage.getItem "user" = some u)
    (hte : t ≠ "") (hue : u ≠ "") (hp : env.jsonParse u = .ok p) :
    mount env storage = .ok (rerender env (setActiveTab "dashboard"
      (setCurrentUser p (setToken (.str t) (initialWorld storage))))) := by
  have h1 : (initialWorld storage).storage.getItem "token" = some t := ht
  have h2 : (initialWorld storage).storage.getItem "user" = some u := hu
  simp only [mount, mountEffect, h1, h2, JsVal.ofItem, JsVal.truthy, hp, Option.getD_some]
  simp [hte, hue, sessionEffect, initialWorld, initialState, JsVal.truthy]

theorem mount_of_missing (env : Env) (storage : Storage)
    (h : storage.getItem "token" = none ∨ storage.getItem "token" = some "" ∨
      storage.getItem "user" = none ∨ storage.getItem "user" = some "") :
    mount env storage = .ok (initialWorld storage) := by
  have hguard : ((JsVal.ofItem ((initialWorld storage).storage.getItem "token")).truthy &&
      (JsVal.ofItem ((initialWorld storage).storage.getItem "user")).truthy) = false := by
    show ((JsVal.ofItem (storage.getItem "token")).truthy &&
      (JsVal.ofItem (storage.getItem "user")).truthy) = false
    rcases h with h | h | h | h <;> rw [h] <;> simp [JsVal.ofItem, JsVal.truthy]
  simp only [mount, mountEffect, hguard]
  simp [sessionEffect, rerender, initialWorld, initialState, JsVal.truthy]

/-- C15, counterexample. Over a storage whose `token` is `t1` and whose `user`
is the text `null`, both keys hold non-empty values and `user` parses, yet
after mount there is no current player. -/
theorem null_user_is_not_restored :
    Sample.nullUser.getItem "token" = some "t1" ∧
      Sample.nullUser.getItem "user" = some "null" ∧
      (Ref.env [] true).jsonParse "null" = .ok .null ∧
      ∃ w, mount (Ref.env [] true) Sample.nullUser = .ok w ∧
        w.state.currentUser = .null ∧ w.state.activeTab = "dashboard" :=
  ⟨rfl, rfl, rfl, _, rfl, rfl, rfl⟩

/-- C15, amended. On process start, for every content of persisted storage:
if both the `token` and the `user` keys hold non-empty values and `user`
parses, the state after mount has the persisted token as in-memory token, the
parsed `user` as current player (so a player is present when that value is
truthy) and `dashboard` as active section; if a key is absent or empty, no
current player is set and the login section is shown. -/
theorem mount_restores_session (env : Env) (storage : Storage) :
    (∀ t u p, storage.getItem "token" = some t → storage.getItem "user" = some u →
        t ≠ "" → u ≠ "" → env.jsonParse u = .ok p →
        ∃ w, mount env storage = .ok w ∧ w.state.token = .str t ∧
          w.state.currentUser = p ∧ w.state.activeTab = "dashboard") ∧
      ((storage.getItem "token" = none ∨ storage.getItem "token" = some "" ∨
          storage.getItem "user" = none ∨ storage.getItem "user" = some "") →
        ∃ w, mount env storage = .ok w ∧ w.state.currentUser = .null ∧
          w.state.activeTab = "login") := by
  constructor
  · intro t u p ht hu hte hue hp
    refine ⟨_, mount_of_both env storage t u p ht hu hte hue hp, ?_, ?_, ?_⟩
    · have h := sessionOf_rerender env (setActiveTab "dashboard"
        (setCurrentUser p (setToken (.str t) (initialWorld storage))))
      exact congrArg (fun x => x.2.1) h
    · have h := sessionOf_rerender env (setActiveTab "dashboard"
        (setCurrentUser p (setToken (.str t) (initialWorld storage))))
      exact congrArg (fun x => x.1) h
    · rw [rerender_activeTab]
      rfl
  · intro h
    exact ⟨_, mount_of_missing env storage h, rfl, rfl⟩

/-- C15, witness: the persisted session of alice is restored; an empty storage
leaves the login section. -/
theorem mount_restores_session_witness :
    (∃ w, mount (Ref.env Sample.loginScript true) Sample.aliceStorage = .ok w ∧
        w.state.token = .str "t1" ∧ w.state.currentUser = Sample.alice ∧
        w.state.activeTab = "dashboard") ∧
      ∃ w, mount (Ref.env [] true) [] = .ok w ∧ w.state.currentUser = .null ∧
        w.state.activeTab = "login" :=
  ⟨(mount_restores_session (Ref.env Sample.loginScript true) Sample.aliceStorage).1 "t1"
      "\x7b\"player_id\":1,\"username\":\"alice\"\x7d" Sample.alice rfl rfl (by decide)
      (by decide) rfl,
    (mount_restores_session (Ref.env [] true) []).2 (Or.inl rfl)⟩

/-! ## C16: the flags of a search result -/

theorem somePlayerId_of_objects (env : Env) (fields : List (String × JsVal)) :
    ∀ entries : List (List (String × JsVal)),
      somePlayerId env (.obj fields) (entries.map JsVal.obj) =
        .ok ((entries.map JsVal.obj).any
          (fun e => strictEq (e.field "player_id") ((JsVal.obj fields).field "player_id")))
  | [] => rfl
  | e :: rest => by
    have ih := somePlayerId_of_objects env fields rest
    simp only [List.map_cons, somePlayerId, getProp, List.any_cons]
    by_cases h : strictEq ((JsVal.obj e).field "player_id")
        ((JsVal.obj fields).field "player_id") = true
    · have h2 := h
      simp only [JsVal.field] at h2
      simp [h, h2]
    · have h2 := h
      simp only [JsVal.field] at h2
      simp [h, h2, ih]

theorem sendFriendRequest_keeps_relationships (env : Env) (p : JsVal) (w : World) :
    (handleSendFriendRequest env p w).state.friendRequests = w.state.friendRequests ∧
      (handleSendFriendRequest env p w).state.friends = w.state.friends := by
  cases h : apiResult env w "/friends/request" "POST" (.obj [("friend_id", p)]) with
  | error msg =>
    rw [handleSendFriendRequest_of_error env p w msg h]
    exact ⟨rfl, rfl⟩
  | ok data =>
    rw [handleSendFriendRequest_of_ok env p w data h]
    constructor
    · exact searchPlayers_slice env _ .friendRequests (by decide)
    · exact searchPlayers_slice env _ .friends (by decide)

/-- C16, the code at the failing input. Alice, who has no incoming request,
searches for `carol` and sends her a friend request; the call succeeds and the
search is re-run. Afterwards the friend-requests list is still empty, so the
row of carol is not flagged has-pending-request: its button is enabled and
reads `Add`. -/
theorem sent_request_is_not_flagged :
    (perform (Ref.env Sample.requestThenHit true) (.sendFriendRequest (.num "3"))
        Sample.searching).shown = [⟨"success", "Friend request sent!"⟩] ∧
      (perform (Ref.env Sample.requestThenHit true) (.sendFriendRequest (.num "3"))
        Sample.searching).state.allPlayers = .arr [Sample.carol] ∧
      (perform (Ref.env Sample.requestThenHit true) (.sendFriendRequest (.num "3"))
        Sample.searching).state.friendRequests = .arr [] ∧
      (perform (Ref.env Sample.requestThenHit true) (.sendFriendRequest (.num "3"))
        Sample.searching).state.friends
        = .arr [.obj [("player_id", .num "2"), ("username", .str "bob")]] ∧
      (perform (Ref.env Sample.requestThenHit true) (.sendFriendRequest (.num "3"))
        Sample.searching).state.loading = false ∧
      hasPendingRequest (Ref.env Sample.requestThenHit true) [] Sample.carol = .ok false ∧
      sendButton (Ref.env Sample.requestThenHit true) false
        [.obj [("player_id", .num "2"), ("username", .str "bob")]] [] Sample.carol
        = .ok (false, "Add") :=
  ⟨by decide, rfl, rfl, rfl, rfl, rfl, rfl⟩

/-! ## C17: a handler whose first call fails -/

/-- C17. For each of `handleLogin`, `handleSignup`, `handleRecordMatch`,
`handleCreateCharacter`, `handleDeleteCharacter`, `handleSendFriendRequest`,
`handleAcceptFriend` and `handleRemoveFriend`, started with no render pending
(and confirmed, where it asks): if its first backend call fails, that call is
the only request issued; the session (token, current user, persisted
storage), the active section, every cell of View State and the four forms are
unchanged; and the handler ends with `loading = false`. -/
theorem failed_first_call_changes_nothing (env : Env) (a : Action) (w : World)
    (ep m : String) (body : JsVal) (msg : String)
    (hclean : w.sessionDirty = false)
    (hcall : a.call w.state = some (ep, m, body))
    (hconfirm : ∀ q, a.confirmText = some q → env.confirm q = true)
    (hfail : apiResult env w ep m body = .error msg) :
    (perform env a w).requests = w.requests ++ [buildRequest env w.state.token ep m body] ∧
      (perform env a w).state.token = w.state.token ∧
      (perform env a w).state.currentUser = w.state.currentUser ∧
      (perform env a w).storage = w.storage ∧
      (perform env a w).state.activeTab = w.state.activeTab ∧
      (∀ s : Slice, (perform env a w).state.slice s = w.state.slice s) ∧
      (perform env a w).state.loginData = w.state.loginData ∧
      (perform env a w).state.signupData = w.state.signupData ∧
      (perform env a w).state.matchData = w.state.matchData ∧
      (perform env a w).state.newCharacter = w.state.newCharacter ∧
      (perform env a w).state.loading = false := by
  have hh := handler_of_error env a w ep m body msg hcall hconfirm hfail
  have hperform : perform env a w = a.handler env w := by
    apply rerender_of_clean
    rw [hh]
    exact hclean
  rw [hperform, hh]
  exact ⟨rfl, rfl, rfl, rfl, rfl, fun s => by cases s <;> rfl, rfl, rfl, rfl, rfl, rfl⟩

/-- C17, witness: the login of the scenario of §8, rejected by the backend;
the form still holds what was typed. -/
theorem failed_first_call_changes_nothing_witness :
    (perform (Ref.env Sample.rejecting true) .login Sample.loggingIn).requests
        = Sample.loggingIn.requests ++
          [buildRequest (Ref.env Sample.rejecting true) Sample.loggingIn.state.token
            "/auth/login" "POST" Sample.loginForm] ∧
      (perform (Ref.env Sample.rejecting true) .login Sample.loggingIn).state.loginData
        = Sample.loginForm ∧
      (perform (Ref.env Sample.rejecting true) .login Sample.loggingIn).state.loading
        = false :=
  ⟨(failed_first_call_changes_nothing (Ref.env Sample.rejecting true) .login Sample.loggingIn
      "/auth/login" "POST" Sample.loginForm "Username already exists" rfl rfl
      (fun _ h => by cases h) rfl).1,
    (failed_first_call_changes_nothing (Ref.env Sample.rejecting true) .login Sample.loggingIn
      "/auth/login" "POST" Sample.loginForm "Username already exists" rfl rfl
      (fun _ h => by cases h) rfl).2.2.2.2.2.2.1,
    (failed_first_call_changes_nothing (Ref.env Sample.rejecting true) .login Sample.loggingIn
      "/auth/login" "POST" Sample.loginForm "Username already exists" rfl rfl
      (fun _ h => by cases h) rfl).2.2.2.2.2.2.2.2.2.2⟩

end GamePlayerManagement
